import Mathlib

/-!
Verification of the home_budget_web storage core

A shallow embedding, in Lean 4, of the storage/migration core of the
`home_budget_web` backend:

* dynamic JSON-style records (`Dict`) as used by the JSON storage path of
  `app/services/expense_service.py` and by
  `app/core/expense_repository.py` / `app/core/json_repository.py`;
* the relational rows and the generic repository operations of
  `app/repositories/base_repository.py` together with the SQLAlchemy
  models (`app/models/expense.py`, `app/core/models.py`);
* the PostgreSQL-backed repository of `app/core/expense_repository.py`
  (the store `storage_factory.get_expense_repository()` wires for
  `STORAGE_TYPE=postgres`, and the only functioning one in this
  revision);
* the feature-flag resolver of `app/core/feature_flags.py`;
* the dual-write ("shadow write") helpers and the CRUD operations of
  `ExpenseService` (`app/services/expense_service.py`), including the
  always-raising `_load_expenses`/`_save_expenses` calls of the current
  revision.

Modelling conventions, used consistently below:

* Python dictionaries become association lists (`Dict`), preserving the
  first-occurrence/update-in-place key semantics of `dict`.
* Python exceptions become `Except PyErr`; a statement returning
  `.error e` models the Python function raising `e` (and hence leaving
  the backing JSON file unsaved, since every `raise` in the modelled code
  happens before the corresponding save call).
* Calendar dates are opaque ISO-8601 strings; `strptime`/`strftime` with
  the `%Y-%m-%d` format are modelled as re-tagging between the string and
  date representations (`Value.vStr` / `Value.vDate`); date *parsing
  failures* are outside every claim considered here.
* `decimal.Decimal` database values (`Numeric(12,2)` columns) are exact
  rationals (`Value.vDec`); Python's `float` conversion is kept abstract
  as a parameter `pyFloat : Rat → Rat` so that the places where binary
  rounding matters can be analysed separately; the sole property ever
  assumed about it is that IEEE-754 binary doubles are dyadic rationals.
* The process environment (`os.getenv`) is a function
  `String → Option String`, and the feature-flag database session is a
  value that either holds the flag rows or fails every query
  (`FlagDb`), matching the single `try/except` granularity of
  `get_flag_from_db`.
-/

set_option autoImplicit false

namespace HomeBudget

/-- Dynamic values stored in JSON-style records.  `vDate` tags a calendar
date object (held as its ISO string), `vDec` a `decimal.Decimal` value
(held as an exact rational); both arise from
`ExpenseService._convert_to_db_format`. -/
inductive Value where
  | vStr (s : String)
  | vInt (n : Int)
  | vRat (q : Rat)
  | vDec (q : Rat)
  | vDate (s : String)
  | vNull
  deriving DecidableEq, Repr

/-- A Python `dict` with string keys, modelled as an association list.
Keys are unique in every dict built by the modelled code. -/
def Dict := List (String × Value)

instance : DecidableEq Dict := inferInstanceAs (DecidableEq (List (String × Value)))

namespace Dict

/-- Models `d.get(k)` and `k in d` lookups: the value at the
first occurrence of key `k`. -/
def get (d : Dict) (k : String) : Option Value :=
  match d with
  | [] => none
  | (k', v) :: rest => if k' = k then some v else get rest k

/-- Models the Python membership test `k in d`. -/
def hasKey (d : Dict) (k : String) : Bool :=
  (d.get k).isSome

/-- Models `d[k] = v`: replace in place if the key exists,
otherwise append (Python dicts preserve insertion order). -/
def set (d : Dict) (k : String) (v : Value) : Dict :=
  match d with
  | [] => [(k, v)]
  | (k', v') :: rest => if k' = k then (k', v) :: rest else (k', v') :: set rest k v

/-- Models `d.update(upd)` (used by `ExpenseService._dual_write_update`). -/
def merge (d : Dict) (upd : Dict) : Dict :=
  upd.foldl (fun acc kv => acc.set kv.1 kv.2) d

theorem get_set_same (d : Dict) (k : String) (v : Value) :
    (d.set k v).get k = some v := by
  induction d with
  | nil => simp [set, get]
  | cons kv rest ih =>
    by_cases h : kv.1 = k <;> simp [set, get, h, ih]

theorem get_set_ne (d : Dict) (k k' : String) (v : Value) (h : k ≠ k') :
    (d.set k v).get k' = d.get k' := by
  induction d with
  | nil => simp [set, get, h]
  | cons kv rest ih =>
    by_cases hk : kv.1 = k
    · subst hk; simp [set, get, h]
    · simp only [set, if_neg hk, get]
      by_cases hk' : kv.1 = k' <;> simp [hk', ih]

end Dict

/-- Python truthiness of the optional values that reach the
`if not data.get("currency")` test in `ExpenseService.create_expense`
and `JsonExpenseRepository.create`: a missing key (`None` from
`dict.get`), `None`, the empty string, and numeric zero are falsy. -/
def isFalsy : Option Value → Bool
  | none => true
  | some .vNull => true
  | some (.vStr s) => s = ""
  | some (.vInt n) => n = 0
  | some (.vRat q) => q = 0
  | some (.vDec q) => q = 0
  | some (.vDate _) => false

/-- Python `==` between a stored value and an `int` (used by every
`item["id"] == entity_id` comparison): ints and floats compare by
numeric value, all other types are unequal to an int. -/
def Value.eqInt : Value → Int → Bool
  | .vInt n, m => n = m
  | .vRat q, m => q = (m : Rat)
  | .vDec q, m => q = (m : Rat)
  | _, _ => false

/-- Python exceptions raised by the modelled code. -/
inductive PyErr where
  | runtimeError (msg : String)
  | valueError (msg : String)
  | keyError
  | typeError
  | attributeError
  | dbError (msg : String)
  deriving DecidableEq, Repr

/-- Log records emitted through `logger`; only the level matters to the
claims (the shadow-write contract is "caught and *logged*"). -/
inductive Log where
  | info
  | warning
  deriving DecidableEq, Repr

/-! Section: `app/core/settings.py` -/

/-- The constant `DEFAULT_CURRENCY = "₪"`. -/
def DEFAULT_CURRENCY : String := "₪"

/-- Models `get_default_currency()`. -/
def get_default_currency : String := DEFAULT_CURRENCY

/-- The `if field == "currency" and value is None:` special case shared
by the update paths: a null currency value is replaced by the configured
default before being stored.  (In the true branch `field` *is*
`"currency"`, so assigning `field` the fixed value coincides with the
source's two assignment statements.) -/
def currencyNullFix (field : String) (value : Value) : Value :=
  if field = "currency" && value = .vNull then .vStr get_default_currency
  else value

/-! Section: `app/core/feature_flags.py` -/

/-- A process environment: `os.getenv` with one optional value per key. -/
def Env := String → Option String

/-- A feature-flag row (`app/models/feature_flag.py`): `name`, `enabled`,
optional `user_id` (`none` = global flag). -/
structure FlagRow where
  name : String
  enabled : Bool
  user_id : Option Int
  deriving DecidableEq, Repr

/-- A flag-store session: either the flag rows are available, or every
query against the session raises (e.g. the `feature_flags` table does
not exist yet) — the granularity at which `get_flag_from_db` catches. -/
inductive FlagDb where
  | ok (rows : List FlagRow)
  | broken (msg : String)

/-- ASCII lower-casing of one character.  Python's `str.lower()` (and
`str.upper()`) is modelled as ASCII case folding — every flag name and
token in the modelled code is ASCII — defined structurally so that
concrete lookups evaluate. -/
def asciiLower (c : Char) : Char :=
  if 'A' ≤ c ∧ c ≤ 'Z' then Char.ofNat (c.toNat + 32) else c

/-- ASCII upper-casing of one character. -/
def asciiUpper (c : Char) : Char :=
  if 'a' ≤ c ∧ c ≤ 'z' then Char.ofNat (c.toNat - 32) else c

/-- Models Python `s.lower()`. -/
def pyLower (s : String) : String := ⟨s.data.map asciiLower⟩

/-- Models Python `s.upper()`. -/
def pyUpper (s : String) : String := ⟨s.data.map asciiUpper⟩

/-- The truthy environment tokens of `get_flag_from_env`. -/
def truthyTokens : List String := ["true", "1", "yes", "on"]

/-- The falsy environment tokens of `get_flag_from_env`. -/
def falsyTokens : List String := ["false", "0", "no", "off"]

/-- Models `get_flag_from_env(flag_name)`: read `FF_{flag_name.upper()}`,
defaulting to `""`, lower-case it, and classify. -/
def get_flag_from_env (env : Env) (flag_name : String) : Option Bool :=
  let env_key := "FF_" ++ pyUpper flag_name
  let env_value := pyLower ((env env_key).getD "")
  if env_value ∈ truthyTokens then some true
  else if env_value ∈ falsyTokens then some false
  else none

/-- Models `db.query(FeatureFlag).filter(name==flag_name, user_id==uid).first()`:
the first row matching the name and the exact (possibly NULL) user id. -/
def queryFlagFirst (rows : List FlagRow) (flag_name : String)
    (uid : Option Int) : Option FlagRow :=
  rows.find? (fun r => r.name = flag_name && r.user_id = uid)

/-- Models `get_flag_from_db(flag_name, db, user_id)`: user-specific row first
(when `user_id` is given), then the global row; any session failure is
caught and yields `None`. -/
def get_flag_from_db (flag_name : String) (db : FlagDb)
    (user_id : Option Int) : Option Bool :=
  match db with
  | .broken _ => none
  | .ok rows =>
    match user_id with
    | some uid =>
      match queryFlagFirst rows flag_name (some uid) with
      | some user_flag => some user_flag.enabled
      | none =>
        match queryFlagFirst rows flag_name none with
        | some global_flag => some global_flag.enabled
        | none => none
    | none =>
      match queryFlagFirst rows flag_name none with
      | some global_flag => some global_flag.enabled
      | none => none

/-- Models `is_feature_enabled(flag_name, default, user_id, db)`: environment
override first, then the database (when a session is supplied), then the
default. -/
def is_feature_enabled (env : Env) (flag_name : String)
    (default : Bool := false) (user_id : Option Int := none)
    (db : Option FlagDb := none) : Bool :=
  match get_flag_from_env env flag_name with
  | some env_result => env_result
  | none =>
    match db with
    | some session =>
      match get_flag_from_db flag_name session user_id with
      | some db_result => db_result
      | none => default
    | none => default

/-! Section: `app/core/storage.py` (Phase 5 revision: always raises) -/

/-- The `RuntimeError` message raised by `load_json`. -/
def jsonRemovedLoadMsg (filename : String) : String :=
  "JSON storage has been removed in Phase 5. " ++
  "Use the repository layer (ExpenseRepository/IncomeRepository) instead. " ++
  "Attempted to load: " ++ filename

/-- The `RuntimeError` message raised by `save_json`. -/
def jsonRemovedSaveMsg (filename : String) : String :=
  "JSON storage has been removed in Phase 5. " ++
  "Use the repository layer (ExpenseRepository/IncomeRepository) instead. " ++
  "Attempted to save: " ++ filename

/-- Models `load_json(filename, default)` — unconditionally raises
`RuntimeError` in the current revision. -/
def load_json {α : Type} (filename : String) (_default : α) : Except PyErr α :=
  .error (.runtimeError (jsonRemovedLoadMsg filename))

/-- Models `save_json(filename, data)` — unconditionally raises
`RuntimeError` in the current revision. -/
def save_json (filename : String) (_data : List Dict) : Except PyErr Unit :=
  .error (.runtimeError (jsonRemovedSaveMsg filename))

/-! Shared helpers for the Python list scans

Every scan below models a Python `for`/list-comprehension over record
dicts that subscripts `e["id"]` — hence raises `KeyError` when a record
has no `"id"` key. -/

/-- The list comprehension `[item["id"] for item in items]`, requiring
integer ids (the only id type the modelled code ever stores; with any
other type Python's `max(...) + 1` arithmetic would not produce the
integer ids assumed everywhere else). -/
def idsOf : List Dict → Except PyErr (List Int)
  | [] => .ok []
  | item :: rest =>
    match item.get "id" with
    | some (.vInt n) => do
      let ns ← idsOf rest
      .ok (n :: ns)
    | some _ => .error .typeError
    | none => .error .keyError

/-- Models `max(ns, default=0)`. -/
def pyMaxDefault0 : List Int → Int
  | [] => 0
  | [n] => n
  | n :: rest => max n (pyMaxDefault0 rest)

/-- Membership `v in ids` of a stored value in a Python `list[int]`. -/
def Value.inIntList (v : Value) (ids : List Int) : Bool :=
  ids.any (fun i => v.eqInt i)

/-- Models `[e for e in items if e["id"] != eid]`. -/
def filterIdNe : List Dict → Int → Except PyErr (List Dict)
  | [], _ => .ok []
  | e :: rest, eid =>
    match e.get "id" with
    | none => .error .keyError
    | some v => do
      let rest' ← filterIdNe rest eid
      .ok (if v.eqInt eid then rest' else e :: rest')

/-- Models `[e for e in items if e["id"] not in ids]`. -/
def filterIdNotIn : List Dict → List Int → Except PyErr (List Dict)
  | [], _ => .ok []
  | e :: rest, ids =>
    match e.get "id" with
    | none => .error .keyError
    | some v => do
      let rest' ← filterIdNotIn rest ids
      .ok (if v.inIntList ids then rest' else e :: rest')

/-- The `for item in items: if item["id"] == entity_id: return item`
lookup loop shared by `JsonRepository.get_by_id` and
`ExpenseService.get_expense`. -/
def findById : List Dict → Int → Except PyErr (Option Dict)
  | [], _ => .ok none
  | item :: rest, eid =>
    match item.get "id" with
    | none => .error .keyError
    | some v =>
      if v.eqInt eid then .ok (some item) else findById rest eid

/-! Section: `app/core/json_repository.py` -/

/-- The constant `JsonRepository.DEFAULT_EXPENSES`. -/
def DEFAULT_EXPENSES : List Dict :=
  [ [("id", .vInt 1), ("date", .vStr "2025-11-01"), ("business", .vStr "SuperSal"),
     ("category", .vStr "Groceries"), ("amount", .vRat (285/2)),
     ("account", .vStr "Visa 1234"), ("currency", .vStr "₪"),
     ("notes", .vStr "Weekly shopping")],
    [("id", .vInt 2), ("date", .vStr "2025-11-05"), ("business", .vStr "Rav-Kav"),
     ("category", .vStr "Transport"), ("amount", .vRat 15),
     ("account", .vStr "Cash"), ("currency", .vStr "₪"),
     ("notes", .vStr "Bus to work")] ]

/-- The constant `JsonRepository.DEFAULT_INCOMES`. -/
def DEFAULT_INCOMES : List Dict :=
  [ [("id", .vInt 1), ("date", .vStr "2025-11-01"), ("category", .vStr "Salary"),
     ("amount", .vRat 8200), ("account", .vStr "Bank Leumi"),
     ("currency", .vStr "₪"), ("notes", .vStr "November salary")],
    [("id", .vInt 2), ("date", .vStr "2025-11-10"), ("category", .vStr "Freelance"),
     ("amount", .vRat 1250), ("account", .vStr "PayPal"),
     ("currency", .vStr "₪"), ("notes", .vStr "Client project")] ]

/-- Models `JsonRepository._get_default(entity_type)`. -/
def jsonRepoDefault (entity_type : String) : List Dict :=
  if entity_type = "expenses" then DEFAULT_EXPENSES
  else if entity_type = "incomes" then DEFAULT_INCOMES
  else []

/-- The in-memory state of a `JsonRepository`: its `_cache` dict. -/
structure JsonRepoState where
  cache : List (String × List Dict)

/-- A freshly constructed `JsonRepository()` (empty cache). -/
def JsonRepoState.fresh : JsonRepoState := ⟨[]⟩

/-- Models `self._cache[entity_type] = items`. -/
def JsonRepoState.setCache (st : JsonRepoState) (entity_type : String)
    (items : List Dict) : JsonRepoState :=
  ⟨go st.cache⟩
where
  go : List (String × List Dict) → List (String × List Dict)
    | [] => [(entity_type, items)]
    | (k, v) :: rest => if k = entity_type then (k, items) :: rest else (k, v) :: go rest

namespace JsonRepository

/-- Models `JsonRepository._load(entity_type)`: serve from the cache, otherwise
call `load_json` (which currently always raises). -/
def loadEntity (st : JsonRepoState) (entity_type : String) :
    Except PyErr (List Dict × JsonRepoState) :=
  match st.cache.lookup entity_type with
  | some items => .ok (items, st)
  | none => do
    let items ← load_json (entity_type ++ ".json") (jsonRepoDefault entity_type)
    .ok (items, st.setCache entity_type items)

/-- Models `JsonRepository._save(entity_type)` (currently always raises). -/
def saveEntity (st : JsonRepoState) (entity_type : String) : Except PyErr Unit :=
  save_json (entity_type ++ ".json") ((st.cache.lookup entity_type).getD [])

/-- Models `JsonRepository.list_all`. -/
def list_all (st : JsonRepoState) (entity_type : String) :
    Except PyErr (List Dict × JsonRepoState) :=
  loadEntity st entity_type

/-- Models `JsonRepository.get_by_id`. -/
def get_by_id (st : JsonRepoState) (entity_type : String) (entity_id : Int) :
    Except PyErr (Option Dict × JsonRepoState) := do
  let (items, st') ← loadEntity st entity_type
  let found ← findById items entity_id
  .ok (found, st')

/-- Models `JsonRepository.create`. -/
def create (st : JsonRepoState) (entity_type : String) (data : Dict) :
    Except PyErr (Dict × JsonRepoState) := do
  let (items, st') ← loadEntity st entity_type
  let ids ← idsOf items
  let new_id := pyMaxDefault0 ids + 1
  let new_item := data.set "id" (.vInt new_id)
  let st'' := st'.setCache entity_type (items ++ [new_item])
  saveEntity st'' entity_type
  .ok (new_item, st'')

/-- The scan of `JsonRepository.update`: find the first record with the
given id and set the field on it unconditionally (this core-layer update
performs no field validation). -/
def updateScan : List Dict → Int → String → Value →
    Except PyErr (Option (Dict × List Dict))
  | [], _, _, _ => .ok none
  | item :: rest, eid, field, value =>
    match item.get "id" with
    | none => .error .keyError
    | some v =>
      if v.eqInt eid then
        let item' := item.set field value
        .ok (some (item', item' :: rest))
      else do
        match ← updateScan rest eid field value with
        | some (r, rest') => .ok (some (r, item :: rest'))
        | none => .ok none

/-- Models `JsonRepository.update`. -/
def update (st : JsonRepoState) (entity_type : String) (entity_id : Int)
    (field : String) (value : Value) :
    Except PyErr (Option Dict × JsonRepoState) := do
  let (items, st') ← loadEntity st entity_type
  match ← updateScan items entity_id field value with
  | some (item', items') =>
    let st'' := st'.setCache entity_type items'
    saveEntity st'' entity_type
    .ok (some item', st'')
  | none => .ok (none, st')

/-- Models `JsonRepository.delete`. -/
def delete (st : JsonRepoState) (entity_type : String) (entity_id : Int) :
    Except PyErr (Bool × JsonRepoState) := do
  let (items, st') ← loadEntity st entity_type
  let items' ← filterIdNe items entity_id
  let st'' := st'.setCache entity_type items'
  if items'.length < items.length then do
    saveEntity st'' entity_type
    .ok (true, st'')
  else
    .ok (false, st'')

/-- Models `JsonRepository.bulk_delete` (saves unconditionally). -/
def bulk_delete (st : JsonRepoState) (entity_type : String) (ids : List Int) :
    Except PyErr (Int × JsonRepoState) := do
  let (items, st') ← loadEntity st entity_type
  let items' ← filterIdNotIn items ids
  let st'' := st'.setCache entity_type items'
  saveEntity st'' entity_type
  .ok ((items.length : Int) - items'.length, st'')

end JsonRepository

/-! Section: `app/core/expense_repository.py` — `JsonExpenseRepository` -/

/-- The inline default data passed to `load_json` by
`JsonExpenseRepository.__init__` (same records as `DEFAULT_EXPENSES`). -/
def jsonExpenseRepoDefaults : List Dict := DEFAULT_EXPENSES

/-- Models `JsonExpenseRepository.__init__`: loads `expenses.json` via
`load_json`, which currently always raises. -/
def JsonExpenseRepository.init : Except PyErr (List Dict) :=
  load_json "expenses.json" jsonExpenseRepoDefaults

/-- The scan of `JsonExpenseRepository.update`: outcome of the
`for exp in self._expenses` loop, before any save. -/
inductive JsonExpUpdateOutcome where
  /-- Loop finished with no matching id: `return None  # Not found`. -/
  | notFound
  /-- Matching record whose keys do not include `field`:
  `return None  # Invalid field` (no save, record untouched). -/
  | invalidField
  /-- Matching record updated; carries the updated record and the full
  updated list that `self._save_json` is called with. -/
  | updated (exp : Dict) (expenses : List Dict)
  deriving DecidableEq

/-- The loop of `JsonExpenseRepository.update`. -/
def jsonExpUpdateScan : List Dict → Int → String → Value →
    Except PyErr JsonExpUpdateOutcome
  | [], _, _, _ => .ok .notFound
  | exp :: rest, eid, field, value =>
    match exp.get "id" with
    | none => .error .keyError
    | some v =>
      if v.eqInt eid then
        if exp.hasKey field then
          let exp' := exp.set field (currencyNullFix field value)
          .ok (.updated exp' (exp' :: rest))
        else
          .ok .invalidField
      else do
        match ← jsonExpUpdateScan rest eid field value with
        | .updated r rest' => .ok (.updated r (exp :: rest'))
        | outcome => .ok outcome

/-- Models `JsonExpenseRepository.update(expense_id, field, value)` on the
in-memory `_expenses` list.  Both the not-found case and the
invalid-field case return `None` without saving; a successful update
calls `self._save_json` (which currently always raises). -/
def JsonExpenseRepository.update (expenses : List Dict) (expense_id : Int)
    (field : String) (value : Value) :
    Except PyErr (Option Dict × List Dict) := do
  match ← jsonExpUpdateScan expenses expense_id field value with
  | .notFound => .ok (none, expenses)
  | .invalidField => .ok (none, expenses)
  | .updated exp' expenses' => do
    save_json "expenses.json" expenses'
    .ok (some exp', expenses')

/-! Section: `app/models/expense.py` + `app/repositories/base_repository.py`

A SQLAlchemy `Expense` instance is a row whose attributes hold dynamic
values (`setattr` stores whatever it is given; typing is only enforced by
the database engine, which is outside the modelled claims).  The
`hasattr(instance, field)` probe is modelled as membership in the
column-name set (the modelled code never probes the handful of
non-column attributes such as `metadata`). -/

/-- Column names of the `Expense` model. -/
def expenseColumns : List String :=
  ["id", "date", "business", "category", "amount", "account", "currency", "notes"]

/-- A SQLAlchemy `Expense` row / instance. -/
structure DbExpense where
  id : Value
  date : Value
  business : Value
  category : Value
  amount : Value
  account : Value
  currency : Value
  notes : Value
  deriving DecidableEq, Repr

/-- Models `setattr(instance, field, value)` for a column attribute; any other
name leaves the row unchanged (callers guard with `hasattr`). -/
def DbExpense.setAttr (e : DbExpense) (field : String) (v : Value) : DbExpense :=
  if field = "id" then { e with id := v }
  else if field = "date" then { e with date := v }
  else if field = "business" then { e with business := v }
  else if field = "category" then { e with category := v }
  else if field = "amount" then { e with amount := v }
  else if field = "account" then { e with account := v }
  else if field = "currency" then { e with currency := v }
  else if field = "notes" then { e with notes := v }
  else e

/-- The state of the `expenses` table: its rows plus the autoincrement
sequence used for `id` assignment on commit. -/
structure DbState where
  rows : List DbExpense
  nextId : Int
  deriving DecidableEq, Repr

/-- Models `BaseRepository.create`: `instance = self.model(**data)` (a `TypeError`
for a non-column keyword), `add`/`commit`/`refresh` (the sequence assigns
the id when none was supplied explicitly). -/
def dbCreate (db : DbState) (data : Dict) : Except PyErr (DbExpense × DbState) :=
  if data.all (fun kv => expenseColumns.contains kv.1) then
    let explicitId := data.get "id"
    let inst : DbExpense :=
      { id := explicitId.getD (.vInt db.nextId),
        date := (data.get "date").getD .vNull,
        business := (data.get "business").getD .vNull,
        category := (data.get "category").getD .vNull,
        amount := (data.get "amount").getD .vNull,
        account := (data.get "account").getD .vNull,
        currency := (data.get "currency").getD .vNull,
        notes := (data.get "notes").getD .vNull }
    .ok (inst, { rows := db.rows ++ [inst],
                 nextId := if explicitId.isSome then db.nextId else db.nextId + 1 })
  else
    .error .typeError

/-- Models `BaseRepository.get`: `filter(self.model.id == id).first()`. -/
def dbGet (db : DbState) (id : Int) : Option DbExpense :=
  db.rows.find? (fun r => r.id.eqInt id)

/-- The `for field, value in data.items(): if hasattr ...: setattr ...`
loop of `BaseRepository.update`: unrecognized fields are silently
skipped. -/
def dbApplyUpdate (inst : DbExpense) (data : Dict) : DbExpense :=
  data.foldl (fun e kv => if expenseColumns.contains kv.1 then e.setAttr kv.1 kv.2 else e) inst

/-- Models `BaseRepository.update`: fetch, apply the guarded `setattr` loop,
commit. -/
def dbUpdate (db : DbState) (id : Int) (data : Dict) : Option DbExpense × DbState :=
  match dbGet db id with
  | none => (none, db)
  | some inst =>
    let inst' := dbApplyUpdate inst data
    (some inst',
     { db with rows := db.rows.map (fun r => if r.id.eqInt id then inst' else r) })

/-- Models `BaseRepository.delete`: fetch, then delete the instance. -/
def dbDelete (db : DbState) (id : Int) : Bool × DbState :=
  match dbGet db id with
  | none => (false, db)
  | some _ => (true, { db with rows := db.rows.filter (fun r => !(r.id.eqInt id)) })

/-- Models `BaseRepository.bulk_delete`: a `DELETE WHERE id IN ids`,
returning the row count. -/
def dbBulkDelete (db : DbState) (ids : List Int) : Int × DbState :=
  ((db.rows.countP (fun r => r.id.inIntList ids) : Int),
   { db with rows := db.rows.filter (fun r => !(r.id.inIntList ids)) })

/-! Section: `ExpenseService` converters (`app/services/expense_service.py`) -/

/-- The date-conversion statement of `ExpenseService._convert_to_db_format`:
re-tag an ISO date string as a date object.  (`_convert_to_db_format` is
split into its two statements; `Decimal(str(x))` is modelled as
value-preserving — no claim below depends on the decimal re-reading of a
float's shortest repr.) -/
def convertDateField (expense : Dict) : Dict :=
  match expense.get "date" with
  | some (.vStr s) => expense.set "date" (.vDate s)
  | _ => expense

/-- The amount-conversion statement of `_convert_to_db_format`:
`Decimal(str(amount))` for an `int`/`float` amount. -/
def convertAmountField (d1 : Dict) : Dict :=
  match d1.get "amount" with
  | some (.vInt n) => d1.set "amount" (.vDec (n : Rat))
  | some (.vRat q) => d1.set "amount" (.vDec q)
  | _ => d1

def convert_to_db_format (expense : Dict) : Dict :=
  convertAmountField (convertDateField expense)

/-- Python's `float(x)` applied to a stored value; the conversion
function itself (`pyFloat`) is a parameter, standing for rounding to an
IEEE-754 binary double. -/
def pyFloatValue (pyFloat : Rat → Rat) : Value → Except PyErr Rat
  | .vDec q => .ok (pyFloat q)
  | .vRat q => .ok (pyFloat q)
  | .vInt n => .ok (pyFloat (n : Rat))
  | _ => .error .typeError

/-- Models `ExpenseService._convert_from_db_format`: turn a model instance into
the service-level dict (`date.strftime`, `float(amount)`). -/
def convert_from_db_format (pyFloat : Rat → Rat) (e : DbExpense) :
    Except PyErr Dict := do
  let dateStr ←
    match e.date with
    | .vDate s => pure s
    | _ => .error PyErr.attributeError
  let amt ← pyFloatValue pyFloat e.amount
  .ok [("id", e.id), ("date", .vStr dateStr), ("business", e.business),
       ("category", e.category), ("amount", .vRat amt),
       ("account", e.account), ("currency", e.currency), ("notes", e.notes)]

/-! Shadow stores for the dual-write helpers

With `USE_DATABASE_STORAGE` enabled the shadow medium is the JSON file,
reached through `_load_expenses`/`_save_expenses` — arbitrary fallible
operations (`JsonShadow`); in the current revision they are
`load_json`/`save_json` and always fail.  With `USE_DATABASE_STORAGE`
disabled the shadow medium is the database repository — arbitrary
fallible operations on an external session (`DbShadow`). -/

/-- The JSON shadow medium of the Phase-4 dual-write branches. -/
structure JsonShadow where
  load : Except PyErr (List Dict)
  save : List Dict → Except PyErr Unit

/-- The database shadow medium of the Phase-3 dual-write branches
(`self.repository`, absent when the service has no session). -/
structure DbShadow where
  create : Dict → Except PyErr Unit
  update : Int → Dict → Except PyErr Unit
  delete : Int → Except PyErr Unit
  bulkDelete : List Int → Except PyErr Int

/-- The `f"... {expense['id']} ..."` interpolation in the dual-write log
calls: subscripting raises `KeyError` when the record has no id (in the
success arm the `KeyError` from `logger.info` is caught by the handler
whose own interpolation re-raises it, so either arm propagates it). -/
def logWithId (expense : Dict) (l : Log) : Except PyErr (List Log) :=
  match expense.get "id" with
  | some _ => .ok [l]
  | none => .error .keyError

/-- The `for expense in expenses: if expense["id"] == expense_id:
expense.update(data); break` loop of `_dual_write_update`'s JSON arm. -/
def mergeFirstById : List Dict → Int → Dict → Except PyErr (List Dict)
  | [], _, _ => .ok []
  | e :: rest, eid, data =>
    match e.get "id" with
    | none => .error .keyError
    | some v =>
      if v.eqInt eid then .ok (e.merge data :: rest)
      else do
        let rest' ← mergeFirstById rest eid data
        .ok (e :: rest')

/-! Helpers `_dual_write_*`, Phase-4 arm (`USE_DATABASE_STORAGE` enabled):
shadow-write to JSON when `DUAL_WRITE_ENABLED` is set, catch and log
every failure. -/

/-- Models `_dual_write_create`, JSON arm. -/
def dualWriteCreateJson (dualWriteEnabled : Bool) (sh : JsonShadow)
    (expense : Dict) : Except PyErr (List Log) :=
  if dualWriteEnabled then
    match (do
        let expenses ← sh.load
        sh.save (expenses ++ [expense])) with
    | .ok _ => logWithId expense .info
    | .error _ => logWithId expense .warning
  else .ok []

/-- Models `_dual_write_update`, JSON arm. -/
def dualWriteUpdateJson (dualWriteEnabled : Bool) (sh : JsonShadow)
    (expense_id : Int) (data : Dict) : List Log :=
  if dualWriteEnabled then
    match (do
        let expenses ← sh.load
        let expenses' ← mergeFirstById expenses expense_id data
        sh.save expenses') with
    | .ok _ => [.info]
    | .error _ => [.warning]
  else []

/-- Models `_dual_write_delete`, JSON arm. -/
def dualWriteDeleteJson (dualWriteEnabled : Bool) (sh : JsonShadow)
    (expense_id : Int) : List Log :=
  if dualWriteEnabled then
    match (do
        let expenses ← sh.load
        let expenses' ← filterIdNe expenses expense_id
        sh.save expenses') with
    | .ok _ => [.info]
    | .error _ => [.warning]
  else []

/-- Models `_dual_write_bulk_delete`, JSON arm. -/
def dualWriteBulkDeleteJson (dualWriteEnabled : Bool) (sh : JsonShadow)
    (ids : List Int) : List Log :=
  if dualWriteEnabled then
    match (do
        let expenses ← sh.load
        let expenses' ← filterIdNotIn expenses ids
        sh.save expenses') with
    | .ok _ => [.info]
    | .error _ => [.warning]
  else []

/-! Helpers `_dual_write_*`, Phase-3 arm (`USE_DATABASE_STORAGE` disabled):
shadow-write to the database repository when `DUAL_WRITE_ENABLED` is set
and a session exists, catch and log every failure. -/

/-- Models `_dual_write_create`, database arm. -/
def dualWriteCreateDb (dualWriteEnabled : Bool) (repo : Option DbShadow)
    (expense : Dict) : Except PyErr (List Log) :=
  if !dualWriteEnabled then .ok []
  else
    match repo with
    | none => .ok [.warning]
    | some r =>
      match r.create (convert_to_db_format expense) with
      | .ok _ => logWithId expense .info
      | .error _ => logWithId expense .warning

/-- Models `_dual_write_update`, database arm. -/
def dualWriteUpdateDb (dualWriteEnabled : Bool) (repo : Option DbShadow)
    (expense_id : Int) (data : Dict) : List Log :=
  if !dualWriteEnabled then []
  else
    match repo with
    | none => [.warning]
    | some r =>
      match r.update expense_id (convert_to_db_format data) with
      | .ok _ => [.info]
      | .error _ => [.warning]

/-- Models `_dual_write_delete`, database arm. -/
def dualWriteDeleteDb (dualWriteEnabled : Bool) (repo : Option DbShadow)
    (expense_id : Int) : List Log :=
  if !dualWriteEnabled then []
  else
    match repo with
    | none => [.warning]
    | some r =>
      match r.delete expense_id with
      | .ok _ => [.info]
      | .error _ => [.warning]

/-- Models `_dual_write_bulk_delete`, database arm. -/
def dualWriteBulkDeleteDb (dualWriteEnabled : Bool) (repo : Option DbShadow)
    (ids : List Int) : List Log :=
  if !dualWriteEnabled then []
  else
    match repo with
    | none => [.warning]
    | some r =>
      match r.bulkDelete ids with
      | .ok _ => [.info]
      | .error _ => [.warning]

/-! Section: `ExpenseService` CRUD operations

`ExpenseService.__init__(db)` sets
`self.repository = ExpenseRepository(db) if db else None`.  In this
revision `ExpenseRepository` (`app/repositories/expense_repository.py`)
can never be instantiated: it does not override the abstract property
`BaseRepository.model`, so instantiating it raises `TypeError` (its
`super().__init__(Expense, db)` also passes two arguments to
`BaseRepository.__init__(self, db)`).  A service constructed *with* a
session therefore raises during `__init__`; the only constructible
service has `self.repository = None`, and since every operation's guard
`is_feature_enabled("USE_DATABASE_STORAGE") and self.repository` is then
falsy, every operation takes the JSON-primary (Phase 3) arm.

Each operation is therefore modelled twice over:

* the *faithful* operation of the constructible, session-less service
  (`create_expense`, `update_expense`, `delete_expense`,
  `bulk_delete_expenses`), whose JSON arm goes through
  `_load_expenses`/`_save_expenses` — in this revision
  `load_json`/`save_json`, which always raise `RuntimeError`;
* the body of the JSON arm after its `self._load_expenses()` call
  (suffix `_json_arm`), i.e. the arm's code applied to an explicitly
  given record list, used to analyse the structure of the branch that
  the always-raising load makes dead; and the database-primary arm
  (suffix `_p4`), unreachable in this revision because it additionally
  requires `self.repository` to be non-None. -/

/-- Models `ExpenseRepository(db)`
(`app/repositories/expense_repository.py`): the class never overrides
the abstract property `BaseRepository.model`, so instantiating it raises
`TypeError` (`Can't instantiate abstract class ...`); its
`super().__init__(Expense, db)` call is also arity-incompatible with
`BaseRepository.__init__(self, db)`.  Constructing the repository — and
hence `ExpenseService(db)` with a session — always raises. -/
def ExpenseRepository.init : Except PyErr Unit := .error .typeError

namespace ExpenseService

/-- Models `ExpenseService.__init__(db)` with a database session:
`self.repository = ExpenseRepository(db)` raises, so no service holding
a repository ever exists in this revision. -/
def initWithSession : Except PyErr Unit := ExpenseRepository.init

/-- Models `ExpenseService._load_expenses`:
`load_json("expenses.json", [])` — always raises in this revision. -/
def load_expenses : Except PyErr (List Dict) :=
  load_json "expenses.json" ([] : List Dict)

/-- Models `ExpenseService._save_expenses`:
`save_json("expenses.json", expenses)` — always raises in this
revision. -/
def save_expenses (expenses : List Dict) : Except PyErr Unit :=
  save_json "expenses.json" expenses

/-- The body of `create_expense`'s JSON arm after its
`self._load_expenses()` call, applied to the loaded list `expenses`:
generate the `max+1` id, append the record, `self._save_expenses(...)`,
dual-write, return the record.  The save raises in this revision, so
the arm never reaches the dual-write or the return. -/
def create_expense_json_arm (dualWriteEnabled : Bool) (repo : Option DbShadow)
    (expenses : List Dict) (data : Dict) :
    Except PyErr (Dict × List Log) := do
  let ids ← idsOf expenses
  let new_id := pyMaxDefault0 ids + 1
  let expense := data.set "id" (.vInt new_id)
  save_expenses (expenses ++ [expense])
  let logs ← dualWriteCreateDb dualWriteEnabled repo expense
  .ok (expense, logs)

/-- Models `ExpenseService.create_expense` for the constructible
(session-less) service: fill a falsy currency with the default (this
happens before the storage branch), then — the Phase-4 guard being
falsy because `self.repository` is `None` — take the JSON arm, whose
`self._load_expenses()` raises `RuntimeError` in this revision before
the id generation is ever reached. -/
def create_expense (dualWriteEnabled : Bool) (data : Dict) :
    Except PyErr (Dict × List Log) := do
  let data :=
    if isFalsy (data.get "currency") then data.set "currency" (.vStr get_default_currency)
    else data
  let expenses ← load_expenses
  create_expense_json_arm dualWriteEnabled none expenses data

/-- The `for expense in expenses:` loop of `update_expense`'s JSON arm
up to (not including) the save: raises `ValueError` on an unrecognized
field of the matched record — before any save — and otherwise yields
the updated record and list for the arm to save. -/
def updateScanP3 : List Dict → Int → String → Value →
    Except PyErr (Option (Dict × List Dict))
  | [], _, _, _ => .ok none
  | exp :: rest, eid, field, value =>
    match exp.get "id" with
    | none => .error .keyError
    | some v =>
      if v.eqInt eid then
        if exp.hasKey field then
          let exp' := exp.set field (currencyNullFix field value)
          .ok (some (exp', exp' :: rest))
        else
          .error (.valueError ("Invalid field: " ++ field))
      else do
        match ← updateScanP3 rest eid field value with
        | some (r, rest') => .ok (some (r, exp :: rest'))
        | none => .ok none

/-- The body of `update_expense`'s JSON arm after its load, applied to
the loaded list: scan for the id, and on a successful match
`self._save_expenses(...)` then dual-write then return.  The save raises
in this revision, so only the not-found and the (pre-save) invalid-field
outcomes complete. -/
def update_expense_json_arm (dualWriteEnabled : Bool) (repo : Option DbShadow)
    (expenses : List Dict) (expense_id : Int) (field : String) (value : Value) :
    Except PyErr (Option Dict × List Log) := do
  match ← updateScanP3 expenses expense_id field value with
  | none => .ok (none, [])
  | some (exp', expenses') => do
    save_expenses expenses'
    match exp'.get field with
    | none => .error .keyError
    | some fv =>
      .ok (some exp', dualWriteUpdateDb dualWriteEnabled repo expense_id [(field, fv)])

/-- Models `ExpenseService.update_expense` for the constructible
service: the JSON arm behind `self._load_expenses()`, which raises
`RuntimeError` in this revision before the scan is reached. -/
def update_expense (dualWriteEnabled : Bool) (expense_id : Int)
    (field : String) (value : Value) :
    Except PyErr (Option Dict × List Log) := do
  let expenses ← load_expenses
  update_expense_json_arm dualWriteEnabled none expenses expense_id field value

/-- The body of `delete_expense`'s JSON arm after its load, applied to
the loaded list: filter the id out; if the list shrank,
`self._save_expenses(...)` (raising in this revision) then dual-write
then `True`, else `False`. -/
def delete_expense_json_arm (dualWriteEnabled : Bool) (repo : Option DbShadow)
    (expenses : List Dict) (expense_id : Int) :
    Except PyErr (Bool × List Log) := do
  let expenses' ← filterIdNe expenses expense_id
  if expenses'.length < expenses.length then do
    save_expenses expenses'
    .ok (true, dualWriteDeleteDb dualWriteEnabled repo expense_id)
  else
    .ok (false, [])

/-- Models `ExpenseService.delete_expense` for the constructible
service: the JSON arm behind `self._load_expenses()`, which raises
`RuntimeError` in this revision. -/
def delete_expense (dualWriteEnabled : Bool) (expense_id : Int) :
    Except PyErr (Bool × List Log) := do
  let expenses ← load_expenses
  delete_expense_json_arm dualWriteEnabled none expenses expense_id

/-- The body of `bulk_delete_expenses`'s JSON arm after its load,
applied to the loaded list: filter out the listed ids; if any were
removed, `self._save_expenses(...)` (raising in this revision) then
dual-write; return the count. -/
def bulk_delete_expenses_json_arm (dualWriteEnabled : Bool)
    (repo : Option DbShadow) (expenses : List Dict) (ids : List Int) :
    Except PyErr (Int × List Log) := do
  let expenses' ← filterIdNotIn expenses ids
  let deleted_count : Int := (expenses.length : Int) - (expenses'.length : Int)
  if deleted_count > 0 then do
    save_expenses expenses'
    .ok (deleted_count, dualWriteBulkDeleteDb dualWriteEnabled repo ids)
  else
    .ok (deleted_count, [])

/-- Models `ExpenseService.bulk_delete_expenses` for the constructible
service: the JSON arm behind `self._load_expenses()`, which raises
`RuntimeError` in this revision. -/
def bulk_delete_expenses (dualWriteEnabled : Bool) (ids : List Int) :
    Except PyErr (Int × List Log) := do
  let expenses ← load_expenses
  bulk_delete_expenses_json_arm dualWriteEnabled none expenses ids

/-- Models `create_expense`, database-primary arm — unreachable in this
revision (it requires `self.repository ≠ None`, see
`ExpenseRepository.init`); kept as the model of the dead branch. -/
def create_expense_p4 (pyFloat : Rat → Rat) (dualWriteEnabled : Bool)
    (sh : JsonShadow) (db : DbState) (data : Dict) :
    Except PyErr (Dict × DbState × List Log) := do
  let data :=
    if isFalsy (data.get "currency") then data.set "currency" (.vStr get_default_currency)
    else data
  let db_data := convert_to_db_format data
  let (created, db') ← dbCreate db db_data
  let expense ← convert_from_db_format pyFloat created
  let logs ← dualWriteCreateJson dualWriteEnabled sh expense
  .ok (expense, db', logs)

/-- Models `update_expense`, database-primary arm — unreachable in this
revision, kept as the model of the dead branch.  (The
`{field: expense[field]}` dict built for the dual-write raises `KeyError`
when `field` is not among the converted record's keys — evaluated in the
caller, before and regardless of `_dual_write_update`.) -/
def update_expense_p4 (pyFloat : Rat → Rat) (dualWriteEnabled : Bool)
    (sh : JsonShadow) (db : DbState) (expense_id : Int) (field : String)
    (value : Value) : Except PyErr (Option Dict × DbState × List Log) := do
  match dbGet db expense_id with
  | none => .ok (none, db, [])
  | some _ =>
    let value := currencyNullFix field value
    let update_data : Dict := [(field, value)]
    let db_data := convert_to_db_format update_data
    let (updated, db') := dbUpdate db expense_id db_data
    match updated with
    | none => .ok (none, db', [])
    | some inst => do
      let expense ← convert_from_db_format pyFloat inst
      match expense.get field with
      | none => .error .keyError
      | some fv =>
        let logs := dualWriteUpdateJson dualWriteEnabled sh expense_id [(field, fv)]
        .ok (some expense, db', logs)

/-- Models `delete_expense`, database-primary arm — unreachable in this
revision, kept as the model of the dead branch. -/
def delete_expense_p4 (dualWriteEnabled : Bool) (sh : JsonShadow)
    (db : DbState) (expense_id : Int) : Bool × DbState × List Log :=
  match dbGet db expense_id with
  | none => (false, db, [])
  | some _ =>
    let (deleted, db') := dbDelete db expense_id
    if deleted then
      (true, db', dualWriteDeleteJson dualWriteEnabled sh expense_id)
    else
      (false, db', [])

/-- Models `bulk_delete_expenses`, database-primary arm — unreachable in
this revision, kept as the model of the dead branch. -/
def bulk_delete_expenses_p4 (dualWriteEnabled : Bool) (sh : JsonShadow)
    (db : DbState) (ids : List Int) : Int × DbState × List Log :=
  let (deleted_count, db') := dbBulkDelete db ids
  let logs :=
    if deleted_count > 0 then dualWriteBulkDeleteJson dualWriteEnabled sh ids
    else []
  (deleted_count, db', logs)

end ExpenseService

/-! Section: `app/core/models.py` — the PoC SQLAlchemy models with their
`to_dict` serializers, and the read path of `PostgresExpenseRepository`
(`app/core/expense_repository.py`) built on them. -/

/-- An `app.core.models.Expense` row.  `date` and `amount` keep the
optional shape of ORM attributes (`none` = Python `None`); the amount is
the exact `Numeric(12,2)` decimal value. -/
structure CoreExpense where
  id : Int
  date : Option String
  business : Option String
  category : String
  amount : Option Rat
  account : String
  currency : String
  notes : Option String
  deriving DecidableEq, Repr

/-- An `app.core.models.Income` row. -/
structure CoreIncome where
  id : Int
  date : Option String
  category : String
  amount : Option Rat
  account : String
  currency : String
  notes : Option String
  deriving DecidableEq, Repr

/-- An optional string attribute serialized as-is (`None` → JSON null). -/
def optStrValue : Option String → Value
  | some s => .vStr s
  | none => .vNull

/-- The `self.date.isoformat() if self.date else None` guard: a `date`
object is always truthy in Python, so only `None` yields null. -/
def dateFieldValue : Option String → Value
  | some s => .vStr s
  | none => .vNull

/-- The `float(self.amount) if self.amount else None` guard: a `Decimal`
is falsy exactly when it is zero (and `None` is falsy), so a zero amount
serializes as null rather than `0.0`. -/
def amountFieldValue (pyFloat : Rat → Rat) : Option Rat → Value
  | some q => if q = 0 then .vNull else .vRat (pyFloat q)
  | none => .vNull

/-- Models `app.core.models.Expense.to_dict`. -/
def coreExpenseToDict (pyFloat : Rat → Rat) (e : CoreExpense) : Dict :=
  [("id", .vInt e.id), ("date", dateFieldValue e.date),
   ("business", optStrValue e.business), ("category", .vStr e.category),
   ("amount", amountFieldValue pyFloat e.amount), ("account", .vStr e.account),
   ("currency", .vStr e.currency), ("notes", optStrValue e.notes)]

/-- Models `app.core.models.Income.to_dict`. -/
def coreIncomeToDict (pyFloat : Rat → Rat) (i : CoreIncome) : Dict :=
  [("id", .vInt i.id), ("date", dateFieldValue i.date),
   ("category", .vStr i.category),
   ("amount", amountFieldValue pyFloat i.amount), ("account", .vStr i.account),
   ("currency", .vStr i.currency), ("notes", optStrValue i.notes)]

/-- Models `PostgresExpenseRepository.list_all`: every row through
`to_dict`. -/
def postgresExpenseListAll (pyFloat : Rat → Rat) (rows : List CoreExpense) :
    List Dict :=
  rows.map (coreExpenseToDict pyFloat)

/-! Section: `PostgresExpenseRepository` (`app/core/expense_repository.py`)
— the write path.  `storage_factory.get_expense_repository()` returns
this repository when `STORAGE_TYPE=postgres`, and unlike the JSON
repositories it is constructible and functional in this revision: each
method opens a session with `get_db_session()` (which commits on normal
exit) and works on the `expenses` table, modelled as a list of
`CoreExpense` rows plus the next value of the sequence behind the
autoincrementing id column, which `db.flush()` assigns to a newly added
row.  Values outside a column's type (e.g. a null in a non-nullable
column) would fail at the database; they are modelled as a `dbError` at
the flush and are not exercised by any claim below. -/

/-- The `expenses` table as seen by `PostgresExpenseRepository`: the rows
and the next value of the id sequence. -/
structure PgState where
  rows : List CoreExpense
  nextId : Int
  deriving DecidableEq, Repr

/-- The ids of the rows of a table state. -/
def pgIds (st : PgState) : List Int := st.rows.map (fun r => r.id)

/-- Coercion of a payload value into a non-nullable string column
(`category`, `account`, `currency`). -/
def pgStrField : Option Value → Except PyErr String
  | some (.vStr s) => .ok s
  | _ => .error (.dbError "not-null string column")

/-- Coercion into a nullable string column (`business`, `notes`). -/
def pgOptStrField : Option Value → Except PyErr (Option String)
  | none => .ok none
  | some .vNull => .ok none
  | some (.vStr s) => .ok (some s)
  | _ => .error (.dbError "string column")

/-- Coercion into the non-nullable `date` column; the date arrives as an
ISO string (router payloads) or a converted date object. -/
def pgDateField : Option Value → Except PyErr String
  | some (.vStr s) => .ok s
  | some (.vDate s) => .ok s
  | _ => .error (.dbError "not-null date column")

/-- Coercion into the non-nullable `amount` column (`Numeric(12,2)`):
numeric payloads are stored exactly. -/
def pgAmountField : Option Value → Except PyErr Rat
  | some (.vInt n) => .ok (n : Rat)
  | some (.vRat q) => .ok q
  | some (.vDec q) => .ok q
  | _ => .error (.dbError "not-null numeric column")

/-- Models `PostgresExpenseRepository.create`: fill a falsy currency with
the default, construct the model row from the payload's fields
(`data.get(...)` each), `db.add`/`db.flush()` — the sequence assigns the
id — and return `to_dict()` of the new row. -/
def pgCreate (pyFloat : Rat → Rat) (st : PgState) (data : Dict) :
    Except PyErr (Dict × PgState) := do
  let data :=
    if isFalsy (data.get "currency") then data.set "currency" (.vStr get_default_currency)
    else data
  let date ← pgDateField (data.get "date")
  let business ← pgOptStrField (data.get "business")
  let category ← pgStrField (data.get "category")
  let amount ← pgAmountField (data.get "amount")
  let account ← pgStrField (data.get "account")
  let currency ← pgStrField (data.get "currency")
  let notes ← pgOptStrField (data.get "notes")
  let expense : CoreExpense :=
    ⟨st.nextId, some date, business, category, some amount, account, currency, notes⟩
  .ok (coreExpenseToDict pyFloat expense,
       { rows := st.rows ++ [expense], nextId := st.nextId + 1 })

/-- Models `setattr(expense, field, value)` followed by `db.flush()` for
a column field: the value is coerced by the column's type. -/
def pgSetAttr (e : CoreExpense) (field : String) (v : Value) :
    Except PyErr CoreExpense :=
  if field = "id" then
    match v with
    | .vInt n => .ok { e with id := n }
    | _ => .error (.dbError "id column")
  else if field = "date" then do
    let s ← pgDateField (some v)
    .ok { e with date := some s }
  else if field = "business" then do
    let s ← pgOptStrField (some v)
    .ok { e with business := s }
  else if field = "category" then do
    let s ← pgStrField (some v)
    .ok { e with category := s }
  else if field = "amount" then do
    let q ← pgAmountField (some v)
    .ok { e with amount := some q }
  else if field = "account" then do
    let s ← pgStrField (some v)
    .ok { e with account := s }
  else if field = "currency" then do
    let s ← pgStrField (some v)
    .ok { e with currency := s }
  else if field = "notes" then do
    let s ← pgOptStrField (some v)
    .ok { e with notes := s }
  else .error .attributeError

/-- Models `PostgresExpenseRepository.update`: find the row by id
(`filter(id == expense_id).first()`); `None` when absent; `None` again
(`return None  # Invalid field`) when `field` is not an attribute of the
row (`hasattr` probed here against the column names — the only names any
claim below exercises); re-apply the default for `currency` set to
`None`; `setattr` + flush and return `to_dict()`. -/
def pgUpdate (pyFloat : Rat → Rat) (st : PgState) (expense_id : Int)
    (field : String) (value : Value) :
    Except PyErr (Option Dict × PgState) :=
  match st.rows.find? (fun r => decide (r.id = expense_id)) with
  | none => .ok (none, st)
  | some expense =>
    if field ∈ expenseColumns then do
      let value := currencyNullFix field value
      let expense' ← pgSetAttr expense field value
      .ok (some (coreExpenseToDict pyFloat expense'),
           { st with
               rows := st.rows.map (fun r => if r.id = expense_id then expense' else r) })
    else
      .ok (none, st)

/-- Models `PostgresExpenseRepository.delete`: find the row by id,
`False` when absent, otherwise `db.delete(expense)` and `True`. -/
def pgDelete (st : PgState) (expense_id : Int) : Bool × PgState :=
  match st.rows.find? (fun r => decide (r.id = expense_id)) with
  | none => (false, st)
  | some _ =>
    (true, { st with rows := st.rows.filter (fun r => !decide (r.id = expense_id)) })

/-- Models `PostgresExpenseRepository.bulk_delete`: one
`DELETE ... WHERE id IN ids` statement, returning the number of rows it
affected. -/
def pgBulkDelete (st : PgState) (ids : List Int) : Int × PgState :=
  ((st.rows.countP (fun r => decide (r.id ∈ ids)) : Int),
   { st with rows := st.rows.filter (fun r => !decide (r.id ∈ ids)) })

/-! Dyadic rationals.  Every IEEE-754 binary double is `m * 2^e` for
integers `m`, `e`, i.e. its exact value is a rational whose reduced
denominator is a power of two.  This is the one property of Python's
`float` used below — no rounding mode is assumed. -/

/-- A rational expressible as `m / 2^k`: the possible exact values of a
binary floating-point number. -/
def IsDyadic (q : Rat) : Prop := ∃ (m : Int) (k : Nat), q = (m : Rat) / 2 ^ k

/-- The IEEE-754 binary64 value nearest to the decimal `0.10`, namely
`3602879701896397 * 2⁻⁵⁵` — the exact value of the Python float
`float(Decimal("0.10"))`. -/
def double_0_10 : Rat := 3602879701896397 / 36028797018963968

/-! Well-formedness of JSON record stores.  Every record the modelled
code creates carries an integer `"id"`; the scans above raise `KeyError`
(or, for `max(...) + 1`, would not produce an integer id) outside this
invariant. -/

/-- The record has an integer id. -/
def hasIntId (d : Dict) : Bool :=
  match d.get "id" with
  | some (.vInt _) => true
  | _ => false

/-- The record has an `"id"` key (of any type). -/
def hasId (d : Dict) : Bool :=
  (d.get "id").isSome

/-- Every record of the store has an `"id"` key. -/
def AllHaveId (store : List Dict) : Bool :=
  store.all hasId

/-- Every record of the store has an integer id. -/
def WFStore (store : List Dict) : Bool :=
  store.all hasIntId

/-- Whether the record's id equals the given integer (Python
`item["id"] == entity_id` on a record that has an id). -/
def idMatches (d : Dict) (id : Int) : Bool :=
  ((d.get "id").map (fun v => v.eqInt id)).getD false

/-- Whether the record's id is in the given id list. -/
def idInList (d : Dict) (ids : List Int) : Bool :=
  ((d.get "id").map (fun v => v.inIntList ids)).getD false

/-- Whether some record of the store has the given id. -/
def containsId (store : List Dict) (id : Int) : Bool :=
  store.any (fun d => idMatches d id)

/-- The integer ids of a store's records, in store order. -/
def storeIds (store : List Dict) : List Int :=
  store.filterMap (fun d =>
    match d.get "id" with
    | some (.vInt n) => some n
    | _ => none)

/-- The ids of the `expenses` table rows (all rows the modelled
repository creates have integer ids). -/
def dbIds (db : DbState) : List Int :=
  db.rows.filterMap (fun r =>
    match r.id with
    | .vInt n => some n
    | _ => none)

/-- Every row of the table has an integer id. -/
def WFDb (db : DbState) : Bool :=
  db.rows.all (fun r => match r.id with | .vInt _ => true | _ => false)

/-! Theorems for the frozen claims. -/

/-- C9: in the current revision every call to `load_json` and `save_json`
unconditionally raises `RuntimeError`, so every JSON-backed repository
operation fails: constructing `JsonExpenseRepository` raises, and on an
empty cache each of `list_all`, `get_by_id`, `create`, `update`,
`delete` and `bulk_delete` of `JsonRepository` raises `RuntimeError` —
the JSON store is unusable even though the abstraction still exposes
it. -/
theorem C9_json_storage_unusable :
    (∀ (α : Type) (filename : String) (default : α),
        load_json filename default
          = .error (.runtimeError (jsonRemovedLoadMsg filename))) ∧
    (∀ (filename : String) (data : List Dict),
        save_json filename data
          = .error (.runtimeError (jsonRemovedSaveMsg filename))) ∧
    JsonExpenseRepository.init
      = .error (.runtimeError (jsonRemovedLoadMsg "expenses.json")) ∧
    (∀ entity_type, JsonRepository.list_all .fresh entity_type
      = .error (.runtimeError (jsonRemovedLoadMsg (entity_type ++ ".json")))) ∧
    (∀ entity_type id, JsonRepository.get_by_id .fresh entity_type id
      = .error (.runtimeError (jsonRemovedLoadMsg (entity_type ++ ".json")))) ∧
    (∀ entity_type data, JsonRepository.create .fresh entity_type data
      = .error (.runtimeError (jsonRemovedLoadMsg (entity_type ++ ".json")))) ∧
    (∀ entity_type id field value,
        JsonRepository.update .fresh entity_type id field value
          = .error (.runtimeError (jsonRemovedLoadMsg (entity_type ++ ".json")))) ∧
    (∀ entity_type id, JsonRepository.delete .fresh entity_type id
      = .error (.runtimeError (jsonRemovedLoadMsg (entity_type ++ ".json")))) ∧
    (∀ entity_type ids, JsonRepository.bulk_delete .fresh entity_type ids
      = .error (.runtimeError (jsonRemovedLoadMsg (entity_type ++ ".json")))) := by
  refine ⟨fun _ _ _ => rfl, fun _ _ => rfl, rfl, fun _ => rfl, fun _ _ => rfl,
    fun _ _ => rfl, fun _ _ _ _ => rfl, fun _ _ => rfl, fun _ _ => rfl⟩

/-- C10: `Expense.to_dict` and `Income.to_dict` serialize a stored amount
of exactly zero as null rather than `0.00` (the conversion guards on the
`Decimal`'s truthiness), the same truthiness guard applies to the date
field, and therefore every read path through `to_dict` — in particular
`PostgresExpenseRepository.list_all` — returns a null amount for a
zero-amount record. -/
theorem C10_zero_amount_serialized_as_null :
    (∀ (pyFloat : Rat → Rat) (e : CoreExpense), e.amount = some 0 →
        (coreExpenseToDict pyFloat e).get "amount" = some .vNull) ∧
    (∀ (pyFloat : Rat → Rat) (i : CoreIncome), i.amount = some 0 →
        (coreIncomeToDict pyFloat i).get "amount" = some .vNull) ∧
    (∀ (pyFloat : Rat → Rat) (e : CoreExpense), e.date = none →
        (coreExpenseToDict pyFloat e).get "date" = some .vNull) ∧
    (∀ (pyFloat : Rat → Rat) (e : CoreExpense), e.amount = some 0 →
        ∀ (rows : List CoreExpense), e ∈ rows →
          ∃ d ∈ postgresExpenseListAll pyFloat rows,
            d.get "id" = some (.vInt e.id) ∧ d.get "amount" = some .vNull) := by
  refine ⟨?_, ?_, ?_, ?_⟩
  · intro pyFloat e h
    simp [coreExpenseToDict, Dict.get, amountFieldValue, h]
  · intro pyFloat i h
    simp [coreIncomeToDict, Dict.get, amountFieldValue, h]
  · intro pyFloat e h
    simp [coreExpenseToDict, Dict.get, dateFieldValue, h]
  · intro pyFloat e h rows hmem
    refine ⟨coreExpenseToDict pyFloat e, List.mem_map_of_mem _ hmem, ?_, ?_⟩
    · simp [coreExpenseToDict, Dict.get]
    · simp [coreExpenseToDict, Dict.get, amountFieldValue, h]

/-- Witness for C10: a concrete expense and income with amount `0.00`
serialize their amount as null, and the expense's null date as null. -/
theorem C10_witness :
    (coreExpenseToDict (fun q => q)
        ⟨7, none, none, "Groceries", some 0, "Visa", "₪", none⟩).get "amount"
      = some .vNull ∧
    (coreIncomeToDict (fun q => q)
        ⟨3, some "2025-12-01", "Salary", some 0, "Bank", "₪", none⟩).get "amount"
      = some .vNull ∧
    (coreExpenseToDict (fun q => q)
        ⟨7, none, none, "Groceries", some 0, "Visa", "₪", none⟩).get "date"
      = some .vNull ∧
    ∃ d ∈ postgresExpenseListAll (fun q => q)
        [⟨7, none, none, "Groceries", some 0, "Visa", "₪", none⟩],
      d.get "id" = some (.vInt 7) ∧ d.get "amount" = some .vNull :=
  ⟨C10_zero_amount_serialized_as_null.1 _ _ rfl,
   C10_zero_amount_serialized_as_null.2.1 _ _ rfl,
   C10_zero_amount_serialized_as_null.2.2.1 _ _ rfl,
   C10_zero_amount_serialized_as_null.2.2.2 _ _ rfl _ (List.mem_singleton.mpr rfl)⟩

/-- Disjointness of the recognized environment tokens. -/
theorem truthy_falsy_disjoint (s : String) (ht : s ∈ truthyTokens)
    (hf : s ∈ falsyTokens) : False := by
  fin_cases ht <;> simp_all [falsyTokens]

/-- C2: `is_feature_enabled` resolves in a fixed priority order, first
match winning: a recognized environment token for `FF_<flag.upper()>`
(case-insensitive `true/1/yes/on` enabling, `false/0/no/off` disabling,
anything else or absence meaning not set) overrides everything including
a database row; otherwise, with a store supplied, the user-specific flag
row is consulted before the global (`user_id` null) row and its
`enabled` value returned; otherwise the supplied default is returned,
a store-lookup failure behaving exactly like "not found". -/
theorem C2_flag_resolution_priority :
    (∀ (env : Env) (name v : String),
        env ("FF_" ++ pyUpper name) = some v → pyLower v ∈ truthyTokens →
        get_flag_from_env env name = some true) ∧
    (∀ (env : Env) (name v : String),
        env ("FF_" ++ pyUpper name) = some v → pyLower v ∈ falsyTokens →
        get_flag_from_env env name = some false) ∧
    (∀ (env : Env) (name : String),
        pyLower ((env ("FF_" ++ pyUpper name)).getD "") ∉ truthyTokens →
        pyLower ((env ("FF_" ++ pyUpper name)).getD "") ∉ falsyTokens →
        get_flag_from_env env name = none) ∧
    (∀ (env : Env) (name : String) (default : Bool) (uid : Option Int)
        (db : Option FlagDb) (b : Bool),
        get_flag_from_env env name = some b →
        is_feature_enabled env name default uid db = b) ∧
    (∀ (env : Env) (name : String) (default : Bool) (uid : Int)
        (rows : List FlagRow) (r : FlagRow),
        get_flag_from_env env name = none →
        queryFlagFirst rows name (some uid) = some r →
        is_feature_enabled env name default (some uid) (some (.ok rows))
          = r.enabled) ∧
    (∀ (env : Env) (name : String) (default : Bool) (uid : Int)
        (rows : List FlagRow) (g : FlagRow),
        get_flag_from_env env name = none →
        queryFlagFirst rows name (some uid) = none →
        queryFlagFirst rows name none = some g →
        is_feature_enabled env name default (some uid) (some (.ok rows))
          = g.enabled) ∧
    (∀ (env : Env) (name : String) (default : Bool)
        (rows : List FlagRow) (g : FlagRow),
        get_flag_from_env env name = none →
        queryFlagFirst rows name none = some g →
        is_feature_enabled env name default none (some (.ok rows))
          = g.enabled) ∧
    (∀ (env : Env) (name : String) (default : Bool) (uid : Option Int)
        (db : Option FlagDb),
        get_flag_from_env env name = none →
        (∀ session, db = some session → get_flag_from_db name session uid = none) →
        is_feature_enabled env name default uid db = default) ∧
    (∀ (env : Env) (name : String) (default : Bool) (uid : Option Int)
        (msg : String),
        is_feature_enabled env name default uid (some (.broken msg))
          = is_feature_enabled env name default uid none) := by
  refine ⟨?_, ?_, ?_, ?_, ?_, ?_, ?_, ?_, ?_⟩
  · intro env name v hv ht
    simp [get_flag_from_env, hv, ht]
  · intro env name v hv hf
    have ht : pyLower v ∉ truthyTokens := fun ht => truthy_falsy_disjoint _ ht hf
    simp [get_flag_from_env, hv, ht, hf]
  · intro env name ht hf
    simp [get_flag_from_env, ht, hf]
  · intro env name default uid db b hb
    simp [is_feature_enabled, hb]
  · intro env name default uid rows r he hq
    simp [is_feature_enabled, he, get_flag_from_db, hq]
  · intro env name default uid rows g he hu hg
    simp [is_feature_enabled, he, get_flag_from_db, hu, hg]
  · intro env name default rows g he hg
    simp [is_feature_enabled, he, get_flag_from_db, hg]
  · intro env name default uid db he hnone
    match db with
    | none => simp [is_feature_enabled, he]
    | some session => simp [is_feature_enabled, he, hnone session rfl]
  · intro env name default uid msg
    cases he : get_flag_from_env env name <;>
      simp [is_feature_enabled, he, get_flag_from_db]

/-- Computation rule for a successful `Except` bind. -/
theorem excBindOk {α β : Type} (a : α) (f : α → Except PyErr β) :
    (Except.ok a : Except PyErr α) >>= f = f a := rfl

/-- Computation rule for a failed `Except` bind. -/
theorem excBindErr {α β : Type} (e : PyErr) (f : α → Except PyErr β) :
    (Except.error e : Except PyErr α) >>= f = .error e := rfl

/-- On a store whose records all have ids, the delete scan is the plain
filter on id mismatch. -/
theorem filterIdNe_eq (store : List Dict) (id : Int)
    (h : AllHaveId store = true) :
    filterIdNe store id = .ok (store.filter (fun d => !(idMatches d id))) := by
  induction store with
  | nil => rfl
  | cons d rest ih =>
    simp only [AllHaveId, List.all_cons, Bool.and_eq_true] at h
    obtain ⟨v, hv⟩ : ∃ v, d.get "id" = some v := by
      cases hg : d.get "id" with
      | none => rw [hasId, hg] at h; simp at h
      | some v => exact ⟨v, rfl⟩
    have ih' := ih h.2
    simp only [filterIdNe, hv, ih', excBindOk, List.filter_cons, idMatches,
      Option.map_some, Option.getD_some]
    by_cases hm : v.eqInt id = true <;> simp [hm]

/-- On a store whose records all have ids, the bulk-delete scan is the
plain filter on id non-membership. -/
theorem filterIdNotIn_eq (store : List Dict) (ids : List Int)
    (h : AllHaveId store = true) :
    filterIdNotIn store ids = .ok (store.filter (fun d => !(idInList d ids))) := by
  induction store with
  | nil => rfl
  | cons d rest ih =>
    simp only [AllHaveId, List.all_cons, Bool.and_eq_true] at h
    obtain ⟨v, hv⟩ : ∃ v, d.get "id" = some v := by
      cases hg : d.get "id" with
      | none => rw [hasId, hg] at h; simp at h
      | some v => exact ⟨v, rfl⟩
    have ih' := ih h.2
    simp only [filterIdNotIn, hv, ih', excBindOk, List.filter_cons, idInList,
      Option.map_some, Option.getD_some]
    by_cases hm : v.inIntList ids = true <;> simp [hm]

/-- Filtering preserves the all-have-id invariant. -/
theorem allHaveId_filter (store : List Dict) (p : Dict → Bool)
    (h : AllHaveId store = true) : AllHaveId (store.filter p) = true := by
  simp only [AllHaveId, List.all_eq_true] at h ⊢
  exact fun d hd => h d (List.mem_of_mem_filter hd)

/-- A store containing a matching record strictly shrinks under the
mismatch filter. -/
theorem filter_ne_lt_of_contains (store : List Dict) (id : Int)
    (h : containsId store id = true) :
    (store.filter (fun d => !(idMatches d id))).length < store.length := by
  simp only [containsId, List.any_eq_true] at h
  obtain ⟨d, hd, hm⟩ := h
  refine List.length_filter_lt_length_iff_exists.mpr ⟨d, hd, ?_⟩
  simp [hm]

/-- The service update scan returns the not-found outcome on a store
with no matching id. -/
theorem updateScanP3_notFound (store : List Dict) (id : Int) (field : String)
    (value : Value) (hwf : AllHaveId store = true)
    (habsent : containsId store id = false) :
    ExpenseService.updateScanP3 store id field value = .ok none := by
  induction store with
  | nil => rfl
  | cons d rest ih =>
    simp only [AllHaveId, List.all_cons, Bool.and_eq_true] at hwf
    simp only [containsId, List.any_cons, Bool.or_eq_false_iff] at habsent
    obtain ⟨v, hv⟩ : ∃ v, d.get "id" = some v := by
      cases hg : d.get "id" with
      | none => rw [hasId, hg] at hwf; simp at hwf
      | some v => exact ⟨v, rfl⟩
    have hm : v.eqInt id = false := by
      simpa [idMatches, hv] using habsent.1
    have ih' := ih hwf.2 habsent.2
    simp [ExpenseService.updateScanP3, hv, hm, ih', excBindOk]

/-- The service update scan raises `ValueError` when the first matching
record lacks the requested field. -/
theorem updateScanP3_invalidField (store : List Dict) (id : Int)
    (field : String) (value : Value) (exp : Dict)
    (hfind : findById store id = .ok (some exp))
    (hfield : exp.hasKey field = false) :
    ExpenseService.updateScanP3 store id field value
      = .error (.valueError ("Invalid field: " ++ field)) := by
  induction store with
  | nil => exact absurd hfind (by simp [findById])
  | cons d rest ih =>
    cases hv : d.get "id" with
    | none => simp only [findById, hv] at hfind; exact absurd hfind (by simp)
    | some v =>
      simp only [findById, hv] at hfind
      by_cases hm : v.eqInt id = true
      · rw [if_pos hm] at hfind
        have hexp : d = exp := by
          have := hfind
          simp only [Except.ok.injEq, Option.some.injEq] at this
          exact this
        subst hexp
        simp [ExpenseService.updateScanP3, hv, hm, hfield]
      · rw [if_neg hm] at hfind
        have ih' := ih hfind
        simp [ExpenseService.updateScanP3, hv, hm, ih', excBindErr]

/-- The `JsonExpenseRepository` update scan returns the invalid-field
outcome when the first matching record lacks the requested field. -/
theorem jsonExpUpdateScan_invalidField (store : List Dict) (id : Int)
    (field : String) (value : Value) (exp : Dict)
    (hfind : findById store id = .ok (some exp))
    (hfield : exp.hasKey field = false) :
    jsonExpUpdateScan store id field value = .ok .invalidField := by
  induction store with
  | nil => exact absurd hfind (by simp [findById])
  | cons d rest ih =>
    cases hv : d.get "id" with
    | none => simp only [findById, hv] at hfind; exact absurd hfind (by simp)
    | some v =>
      simp only [findById, hv] at hfind
      by_cases hm : v.eqInt id = true
      · rw [if_pos hm] at hfind
        have hexp : d = exp := by
          have := hfind
          simp only [Except.ok.injEq, Option.some.injEq] at this
          exact this
        subst hexp
        simp [jsonExpUpdateScan, hv, hm, hfield]
      · rw [if_neg hm] at hfind
        have ih' := ih hfind
        simp [jsonExpUpdateScan, hv, hm, ih', excBindOk]

/-- The dead JSON update arm, applied to a loaded list with no matching
id, completes with the not-found result (that path performs no save). -/
theorem update_arm_notFound (dw : Bool) (repo : Option DbShadow)
    (store : List Dict) (id : Int) (field : String) (value : Value)
    (hwf : AllHaveId store = true) (habsent : containsId store id = false) :
    ExpenseService.update_expense_json_arm dw repo store id field value
      = .ok (none, []) := by
  have h := updateScanP3_notFound store id field value hwf habsent
  simp [ExpenseService.update_expense_json_arm, h, excBindOk]

/-- The dead JSON update arm raises `ValueError` — before any save —
when the first matching record lacks the requested field. -/
theorem update_arm_invalidField (dw : Bool) (repo : Option DbShadow)
    (store : List Dict) (id : Int) (field : String) (value : Value) (exp : Dict)
    (hfind : findById store id = .ok (some exp))
    (hfield : exp.hasKey field = false) :
    ExpenseService.update_expense_json_arm dw repo store id field value
      = .error (.valueError ("Invalid field: " ++ field)) := by
  have h := updateScanP3_invalidField store id field value exp hfind hfield
  simp [ExpenseService.update_expense_json_arm, h, excBindErr]

/-- Counterexample for C3: an `update(id, field, value)` call with a
nonexistent id does not yield the claimed NotFound result — in this
revision `ExpenseService.update_expense` raises `RuntimeError` at its
`self._load_expenses()` call before any record is examined, so neither
of the two promised failure outcomes is ever produced. -/
theorem C3_counterexample :
    ExpenseService.update_expense false 99 "category" (.vStr "Transport")
      = .error (.runtimeError (jsonRemovedLoadMsg "expenses.json")) := rfl

/-- C3 (amended): in this revision every `ExpenseService.update_expense`
call raises `RuntimeError` at the removed JSON storage, so the service
never signals NotFound or InvalidField at all.  Its update loop — dead
code behind the failing load — applied to a loaded record list does keep
the two failures distinct (`None` for a missing id; `ValueError`, raised
before any save, for an unrecognized field of an existing record), while
the body of `JsonExpenseRepository.update` (a class that can no longer
be constructed, its `__init__` raising at `load_json`) returns the same
`None` for an invalid field as for a missing id. -/
theorem C3_update_failure_modes :
    (∀ (dw : Bool) (id : Int) (field : String) (value : Value),
        ExpenseService.update_expense dw id field value
          = .error (.runtimeError (jsonRemovedLoadMsg "expenses.json"))) ∧
    (∀ (dw : Bool) (repo : Option DbShadow) (store : List Dict) (id : Int)
        (field : String) (value : Value),
        AllHaveId store = true → containsId store id = false →
        ExpenseService.update_expense_json_arm dw repo store id field value
          = .ok (none, [])) ∧
    (∀ (dw : Bool) (repo : Option DbShadow) (store : List Dict) (id : Int)
        (field : String) (value : Value) (exp : Dict),
        findById store id = .ok (some exp) → exp.hasKey field = false →
        ExpenseService.update_expense_json_arm dw repo store id field value
          = .error (.valueError ("Invalid field: " ++ field))) ∧
    (∀ (store : List Dict) (id : Int) (field : String) (value : Value)
        (exp : Dict),
        findById store id = .ok (some exp) → exp.hasKey field = false →
        JsonExpenseRepository.update store id field value = .ok (none, store)) ∧
    (∀ (res : Option Dict × List Log) (msg : String),
        (Except.ok res : Except PyErr (Option Dict × List Log))
          ≠ .error (.valueError msg)) := by
  refine ⟨fun _ _ _ _ => rfl, ?_, ?_, ?_, ?_⟩
  · intro dw repo store id field value hwf habsent
    exact update_arm_notFound dw repo store id field value hwf habsent
  · intro dw repo store id field value exp hfind hfield
    exact update_arm_invalidField dw repo store id field value exp hfind hfield
  · intro store id field value exp hfind hfield
    have h := jsonExpUpdateScan_invalidField store id field value exp hfind hfield
    simp [JsonExpenseRepository.update, h, excBindOk]
  · intro res msg h
    exact Except.noConfusion h

/-- Witness for C3's amended statement: the service call on a concrete
input raises `RuntimeError`; the dead arm on a concrete one-record list
returns not-found for id 2 and raises `ValueError` for the unknown field
`"color"` of record 1; the repository body returns the not-found-shaped
`None` for the same invalid field. -/
theorem C3_witness :
    ExpenseService.update_expense false 2 "category" (.vStr "T")
      = .error (.runtimeError (jsonRemovedLoadMsg "expenses.json")) ∧
    ExpenseService.update_expense_json_arm false none
        [[("id", .vInt 1), ("category", .vStr "G")]] 2 "category" (.vStr "T")
      = .ok (none, []) ∧
    ExpenseService.update_expense_json_arm false none
        [[("id", .vInt 1), ("category", .vStr "G")]] 1 "color" (.vStr "red")
      = .error (.valueError ("Invalid field: " ++ "color")) ∧
    JsonExpenseRepository.update
        [[("id", .vInt 1), ("category", .vStr "G")]] 1 "color" (.vStr "red")
      = .ok (none, [[("id", .vInt 1), ("category", .vStr "G")]]) :=
  ⟨C3_update_failure_modes.1 false 2 "category" (.vStr "T"),
   C3_update_failure_modes.2.1 false none _ 2 "category" (.vStr "T")
     (by decide) (by decide),
   C3_update_failure_modes.2.2.1 false none _ 1 "color" (.vStr "red")
     [("id", .vInt 1), ("category", .vStr "G")] rfl (by decide),
   C3_update_failure_modes.2.2.2.1 _ 1 "color" (.vStr "red")
     [("id", .vInt 1), ("category", .vStr "G")] rfl (by decide)⟩

/-- On a store whose records all have integer ids, the id-comprehension
succeeds and returns exactly the ids. -/
theorem idsOf_eq (store : List Dict) (h : WFStore store = true) :
    idsOf store = .ok (storeIds store) := by
  induction store with
  | nil => rfl
  | cons d rest ih =>
    simp only [WFStore, List.all_cons, Bool.and_eq_true] at h
    obtain ⟨n, hn⟩ : ∃ n, d.get "id" = some (.vInt n) := by
      cases hg : d.get "id" with
      | none => rw [hasIntId, hg] at h; simp at h
      | some v =>
        cases v with
        | vInt n => exact ⟨n, rfl⟩
        | _ => rw [hasIntId, hg] at h; simp_all
    have ih' := ih h.2
    simp [idsOf, hn, ih', excBindOk, storeIds]

/-- Every member of an integer list is bounded by `max(list, default=0)`. -/
theorem mem_le_pyMaxDefault0 (ns : List Int) (n : Int) (h : n ∈ ns) :
    n ≤ pyMaxDefault0 ns := by
  induction ns with
  | nil => cases h
  | cons m rest ih =>
    cases rest with
    | nil =>
      rcases List.mem_singleton.mp h with rfl
      exact le_refl _
    | cons m' rest' =>
      rcases List.mem_cons.mp h with rfl | hmem
      · exact le_max_left _ _
      · exact le_trans (ih hmem) (le_max_right _ _)

/-- On a well-formed store, id containment is membership in the id
list. -/
theorem containsId_iff_mem (store : List Dict) (n : Int)
    (h : WFStore store = true) :
    containsId store n = true ↔ n ∈ storeIds store := by
  simp only [WFStore, List.all_eq_true] at h
  simp only [containsId, List.any_eq_true, storeIds, List.mem_filterMap]
  constructor
  · rintro ⟨d, hd, hmatch⟩
    obtain ⟨m, hm⟩ : ∃ m, d.get "id" = some (.vInt m) := by
      have hwd := h d hd
      cases hg : d.get "id" with
      | none => rw [hasIntId, hg] at hwd; simp at hwd
      | some v =>
        cases v with
        | vInt m => exact ⟨m, rfl⟩
        | _ => rw [hasIntId, hg] at hwd; simp_all
    rw [idMatches, hm] at hmatch
    simp [Value.eqInt] at hmatch
    exact ⟨d, hd, by rw [hm, hmatch]⟩
  · rintro ⟨d, hd, hmap⟩
    refine ⟨d, hd, ?_⟩
    cases hg : d.get "id" with
    | none => rw [hg] at hmap; simp at hmap
    | some v =>
      cases v with
      | vInt m =>
        rw [hg] at hmap
        simp only [Option.some.injEq] at hmap
        simp [idMatches, hg, Value.eqInt, hmap]
      | vStr s => rw [hg] at hmap; simp at hmap
      | vRat q => rw [hg] at hmap; simp at hmap
      | vDec q => rw [hg] at hmap; simp at hmap
      | vDate s => rw [hg] at hmap; simp at hmap
      | vNull => rw [hg] at hmap; simp at hmap

/-- The id list distributes over store concatenation. -/
theorem storeIds_append (s t : List Dict) :
    storeIds (s ++ t) = storeIds s ++ storeIds t :=
  List.filterMap_append ..

theorem convertDateField_get_ne (d : Dict) (k : String) (hne : "date" ≠ k) :
    (convertDateField d).get k = d.get k := by
  unfold convertDateField
  rcases hg : d.get "date" with _ | v
  · rfl
  · cases v <;> simp [Dict.get_set_ne _ _ _ _ hne]

theorem convertAmountField_get_ne (d : Dict) (k : String) (hne : "amount" ≠ k) :
    (convertAmountField d).get k = d.get k := by
  unfold convertAmountField
  rcases hg : d.get "amount" with _ | v
  · rfl
  · cases v <;> simp [Dict.get_set_ne _ _ _ _ hne]

theorem convert_to_db_format_get_ne (d : Dict) (k : String)
    (hdate : k ≠ "date") (hamount : k ≠ "amount") :
    (convert_to_db_format d).get k = d.get k := by
  rw [convert_to_db_format,
    convertAmountField_get_ne _ _ (fun h => hamount h.symm),
    convertDateField_get_ne _ _ (fun h => hdate h.symm)]

/-- A row found by the id query is a member of the table and carries the
queried id. -/
theorem pg_find_mem (st : PgState) (id : Int) (e : CoreExpense)
    (h : st.rows.find? (fun r => decide (r.id = id)) = some e) :
    e ∈ st.rows ∧ e.id = id := by
  refine ⟨List.mem_of_find?_eq_some h, ?_⟩
  have := List.find?_some h
  simpa using this

/-- A successful `PostgresExpenseRepository.create` whose payload has a
falsy currency stores the default currency and returns it. -/
theorem pgCreate_falsy_currency (pyFloat : Rat → Rat) (st : PgState)
    (data : Dict) (d : Dict) (st' : PgState)
    (hfalsy : isFalsy (data.get "currency") = true)
    (h : pgCreate pyFloat st data = .ok (d, st')) :
    d.get "currency" = some (.vStr DEFAULT_CURRENCY) ∧
    ∃ row ∈ st'.rows, row.currency = DEFAULT_CURRENCY := by
  simp only [pgCreate, hfalsy, if_true] at h
  set data₁ := data.set "currency" (.vStr get_default_currency) with hdata₁
  have hcur : data₁.get "currency" = some (.vStr get_default_currency) :=
    Dict.get_set_same _ _ _
  cases hdate : pgDateField (data₁.get "date") with
  | error e => rw [hdate] at h; exact absurd h (by simp [excBindErr])
  | ok date =>
    rw [hdate] at h
    simp only [excBindOk] at h
    cases hbus : pgOptStrField (data₁.get "business") with
    | error e => rw [hbus] at h; exact absurd h (by simp [excBindErr])
    | ok business =>
      rw [hbus] at h
      simp only [excBindOk] at h
      cases hcat : pgStrField (data₁.get "category") with
      | error e => rw [hcat] at h; exact absurd h (by simp [excBindErr])
      | ok category =>
        rw [hcat] at h
        simp only [excBindOk] at h
        cases hamt : pgAmountField (data₁.get "amount") with
        | error e => rw [hamt] at h; exact absurd h (by simp [excBindErr])
        | ok amount =>
          rw [hamt] at h
          simp only [excBindOk] at h
          cases hacc : pgStrField (data₁.get "account") with
          | error e => rw [hacc] at h; exact absurd h (by simp [excBindErr])
          | ok account =>
            rw [hacc] at h
            simp only [excBindOk] at h
            rw [hcur] at h
            have hcc : pgStrField (some (Value.vStr get_default_currency))
                = .ok get_default_currency := rfl
            rw [hcc] at h
            simp only [excBindOk] at h
            cases hnotes : pgOptStrField (data₁.get "notes") with
            | error e => rw [hnotes] at h; exact absurd h (by simp [excBindErr])
            | ok notes =>
              rw [hnotes] at h
              simp only [excBindOk, Except.ok.injEq, Prod.mk.injEq] at h
              obtain ⟨hd, hst⟩ := h
              subst hd
              constructor
              · simp [coreExpenseToDict, Dict.get, get_default_currency]
              · refine ⟨⟨st.nextId, some date, business, category, some amount,
                  account, get_default_currency, notes⟩, ?_, rfl⟩
                rw [← hst]
                exact List.mem_append_right _ (List.mem_singleton.mpr rfl)

/-- A successful `PostgresExpenseRepository.update` of `currency` to
`None` stores and returns the default currency. -/
theorem pgUpdate_currency_null (pyFloat : Rat → Rat) (st : PgState)
    (expense_id : Int) (d : Dict) (st' : PgState)
    (h : pgUpdate pyFloat st expense_id "currency" .vNull = .ok (some d, st')) :
    d.get "currency" = some (.vStr DEFAULT_CURRENCY) ∧
    ∃ row ∈ st'.rows, row.currency = DEFAULT_CURRENCY := by
  cases hfind : st.rows.find? (fun r => decide (r.id = expense_id)) with
  | none =>
    simp only [pgUpdate, hfind] at h
    exact absurd h (by simp)
  | some e =>
    obtain ⟨hmem, hid⟩ := pg_find_mem st expense_id e hfind
    simp only [pgUpdate, hfind] at h
    rw [if_pos (by decide : ("currency" : String) ∈ expenseColumns)] at h
    have hfix : currencyNullFix "currency" .vNull
        = .vStr get_default_currency := rfl
    rw [hfix] at h
    have hset : pgSetAttr e "currency" (.vStr get_default_currency)
        = .ok { e with currency := get_default_currency } := rfl
    rw [hset] at h
    simp only [excBindOk, Except.ok.injEq, Prod.mk.injEq,
      Option.some.injEq] at h
    obtain ⟨hd, hst⟩ := h
    subst hd
    constructor
    · simp [coreExpenseToDict, Dict.get, get_default_currency]
    · refine ⟨{ e with currency := get_default_currency }, ?_, rfl⟩
      rw [← hst]
      exact List.mem_map.mpr ⟨e, hmem, by rw [if_pos hid]⟩

/-- Counterexample for C5: on the functioning store of this revision
(`PostgresExpenseRepository`, the repository `get_expense_repository()`
wires for `STORAGE_TYPE=postgres`), an update that sets `currency` to
the *empty string* persists the empty string — only `None` triggers the
re-defaulting — so "a persisted record's currency field is never empty
or null" fails on the live write path. -/
theorem C5_counterexample :
    pgUpdate (fun q => q)
        ⟨[⟨1, some "2025-12-01", none, "Groceries", none, "Visa", "₪", none⟩], 2⟩
        1 "currency" (.vStr "")
      = .ok (some (coreExpenseToDict (fun q => q)
               ⟨1, some "2025-12-01", none, "Groceries", none, "Visa", "", none⟩),
             ⟨[⟨1, some "2025-12-01", none, "Groceries", none, "Visa", "", none⟩], 2⟩) ∧
    (coreExpenseToDict (fun q => q)
        ⟨1, some "2025-12-01", none, "Groceries", none, "Visa", "", none⟩).get
        "currency"
      = some (.vStr "") := ⟨rfl, rfl⟩

/-- A successful db-to-service conversion copies the instance's currency
attribute verbatim into the result dict. -/
theorem convert_from_db_format_currency (pyFloat : Rat → Rat)
    (inst : DbExpense) (expense : Dict)
    (h : convert_from_db_format pyFloat inst = .ok expense) :
    expense.get "currency" = some inst.currency := by
  unfold convert_from_db_format at h
  cases hd : inst.date with
  | vDate s =>
    simp only [hd, pure_bind] at h
    cases hamt : pyFloatValue pyFloat inst.amount with
    | error err => rw [hamt] at h; simp [excBindErr] at h
    | ok q =>
      rw [hamt] at h
      simp only [excBindOk, Except.ok.injEq] at h
      rw [← h]
      simp [Dict.get]
  | vStr s => simp [hd, excBindErr] at h
  | vInt n => simp [hd, excBindErr] at h
  | vRat q => simp [hd, excBindErr] at h
  | vDec q => simp [hd, excBindErr] at h
  | vNull => simp [hd, excBindErr] at h

/-- A successful `dbCreate` stores exactly the dict's column values; in
particular the row's currency is the dict's and the row is appended. -/
theorem dbCreate_ok_fields (db : DbState) (data : Dict) (inst : DbExpense)
    (db' : DbState) (h : dbCreate db data = .ok (inst, db')) :
    inst.currency = (data.get "currency").getD .vNull ∧
    db'.rows = db.rows ++ [inst] := by
  unfold dbCreate at h
  by_cases hall : data.all (fun kv => expenseColumns.contains kv.1) = true
  · rw [if_pos hall] at h
    simp only [Except.ok.injEq, Prod.mk.injEq] at h
    obtain ⟨h1, h2⟩ := h
    constructor
    · rw [← h1]
    · rw [← h2, ← h1]
  · rw [if_neg hall] at h
    cases h

/-- The JSON-arm update scan, asked to set `currency` to null, always
re-applies the default currency on success. -/
theorem updateScanP3_currency_null (store : List Dict) (id : Int)
    (exp' : Dict) (st' : List Dict)
    (h : ExpenseService.updateScanP3 store id "currency" .vNull
      = .ok (some (exp', st'))) :
    exp'.get "currency" = some (.vStr get_default_currency) ∧ exp' ∈ st' := by
  induction store generalizing exp' st' with
  | nil => simp [ExpenseService.updateScanP3] at h
  | cons d rest ih =>
    cases hv : d.get "id" with
    | none => simp [ExpenseService.updateScanP3, hv] at h
    | some v =>
      by_cases hm : v.eqInt id = true
      · by_cases hk : d.hasKey "currency" = true
        · simp only [ExpenseService.updateScanP3, hv, hm, hk, if_true,
            Except.ok.injEq, Option.some.injEq, Prod.mk.injEq] at h
          obtain ⟨h1, h2⟩ := h
          have hfix : currencyNullFix "currency" .vNull
              = .vStr get_default_currency := rfl
          subst h1
          subst h2
          rw [hfix]
          exact ⟨Dict.get_set_same _ _ _, List.mem_cons_self _ _⟩
        · simp [ExpenseService.updateScanP3, hv, hm, hk] at h
      · simp only [ExpenseService.updateScanP3, hv] at h
        rw [if_neg hm] at h
        cases hrest : ExpenseService.updateScanP3 rest id "currency" .vNull with
        | error err => rw [hrest] at h; simp [excBindErr] at h
        | ok r =>
          rw [hrest] at h
          cases r with
          | none => simp [excBindOk] at h
          | some pr' =>
            obtain ⟨r₁, rest₁⟩ := pr'
            simp only [excBindOk, Except.ok.injEq, Option.some.injEq,
              Prod.mk.injEq] at h
            obtain ⟨h1, h2⟩ := h
            obtain ⟨hg, hmem⟩ := ih r₁ rest₁ hrest
            subst h1
            subst h2
            exact ⟨hg, List.mem_cons_of_mem _ hmem⟩

/-- C5 (amended): on the functioning store of this revision
(`PostgresExpenseRepository`), a create payload with a falsy currency
(missing, null or empty) stores and returns the configured default, and
an update that clears `currency` to null re-applies the default, so a
*null* currency is never persisted there; but an update that sets
`currency` to the empty string persists the empty string (see the
counterexample).  The `ExpenseService` create/update arms carrying the
same defaulting logic are dead in this revision: every service
`create_expense`/`update_expense` call raises `RuntimeError` at the
removed JSON storage before anything is persisted. -/
theorem C5_currency_defaulting :
    (∀ (pyFloat : Rat → Rat) (st : PgState) (data : Dict) (d : Dict)
        (st' : PgState),
        isFalsy (data.get "currency") = true →
        pgCreate pyFloat st data = .ok (d, st') →
        d.get "currency" = some (.vStr DEFAULT_CURRENCY) ∧
        ∃ row ∈ st'.rows, row.currency = DEFAULT_CURRENCY) ∧
    (∀ (pyFloat : Rat → Rat) (st : PgState) (expense_id : Int) (d : Dict)
        (st' : PgState),
        pgUpdate pyFloat st expense_id "currency" .vNull = .ok (some d, st') →
        d.get "currency" = some (.vStr DEFAULT_CURRENCY) ∧
        ∃ row ∈ st'.rows, row.currency = DEFAULT_CURRENCY) ∧
    (∀ (dw : Bool) (data : Dict),
        ExpenseService.create_expense dw data
          = .error (.runtimeError (jsonRemovedLoadMsg "expenses.json"))) ∧
    (∀ (dw : Bool) (id : Int) (field : String) (value : Value),
        ExpenseService.update_expense dw id field value
          = .error (.runtimeError (jsonRemovedLoadMsg "expenses.json"))) :=
  ⟨pgCreate_falsy_currency, pgUpdate_currency_null,
   fun _ _ => rfl, fun _ _ _ _ => rfl⟩

/-- Witness for C5's amended statement: a concrete create without a
currency and a concrete null-clearing update on the Postgres store both
yield the default currency, and the concrete service calls raise. -/
theorem C5_witness :
    (∃ (d : Dict) (st' : PgState),
      pgCreate (fun q => q) ⟨[], 1⟩
          [("date", .vStr "2025-12-01"), ("category", .vStr "Groceries"),
           ("amount", .vInt 5), ("account", .vStr "Visa")]
        = .ok (d, st') ∧
      d.get "currency" = some (.vStr DEFAULT_CURRENCY) ∧
      ∃ row ∈ st'.rows, row.currency = DEFAULT_CURRENCY) ∧
    (∃ (d : Dict) (st' : PgState),
      pgUpdate (fun q => q)
          ⟨[⟨1, some "2025-12-01", none, "Groceries", none, "Visa", "$", none⟩], 2⟩
          1 "currency" .vNull
        = .ok (some d, st') ∧
      d.get "currency" = some (.vStr DEFAULT_CURRENCY) ∧
      ∃ row ∈ st'.rows, row.currency = DEFAULT_CURRENCY) ∧
    ExpenseService.create_expense false [("category", .vStr "x")]
      = .error (.runtimeError (jsonRemovedLoadMsg "expenses.json")) ∧
    ExpenseService.update_expense false 1 "currency" .vNull
      = .error (.runtimeError (jsonRemovedLoadMsg "expenses.json")) := by
  refine ⟨?_, ?_, C5_currency_defaulting.2.2.1 false _,
    C5_currency_defaulting.2.2.2 false 1 "currency" .vNull⟩
  · obtain ⟨h1, h2⟩ := C5_currency_defaulting.1 (fun q => q) ⟨[], 1⟩
      [("date", .vStr "2025-12-01"), ("category", .vStr "Groceries"),
       ("amount", .vInt 5), ("account", .vStr "Visa")] _ _ (by decide) rfl
    exact ⟨_, _, rfl, h1, h2⟩
  · obtain ⟨h1, h2⟩ := C5_currency_defaulting.2.1 (fun q => q)
      ⟨[⟨1, some "2025-12-01", none, "Groceries", none, "Visa", "$", none⟩], 2⟩
      1 _ _ rfl
    exact ⟨_, _, rfl, h1, h2⟩

/-- Integer ids imply the weaker has-id invariant. -/
theorem allHaveId_of_wfStore (store : List Dict) (h : WFStore store = true) :
    AllHaveId store = true := by
  simp only [WFStore, List.all_eq_true] at h
  simp only [AllHaveId, List.all_eq_true]
  intro d hd
  have := h d hd
  unfold hasIntId at this
  unfold hasId
  cases hg : d.get "id" with
  | none => rw [hg] at this; simp at this
  | some v => simp

/-- Python membership of an integer record id in an id list coincides
with list membership. -/
theorem inIntList_vInt (m : Int) (ids : List Int) :
    Value.inIntList (.vInt m) ids = decide (m ∈ ids) := by
  rw [Bool.eq_iff_iff]
  simp only [Value.inIntList, List.any_eq_true, Value.eqInt,
    decide_eq_true_eq]
  constructor
  · rintro ⟨i, hi, rfl⟩; exact hi
  · intro h; exact ⟨m, h, rfl⟩

/-- On a well-formed store, counting the records whose id is in `ids`
counts the store ids in `ids`. -/
theorem length_filter_idInList (store : List Dict) (ids : List Int)
    (h : WFStore store = true) :
    (store.filter (fun d => idInList d ids)).length
      = ((storeIds store).filter (fun n => decide (n ∈ ids))).length := by
  induction store with
  | nil => rfl
  | cons d rest ih =>
    simp only [WFStore, List.all_cons, Bool.and_eq_true] at h
    obtain ⟨m, hm⟩ : ∃ m, d.get "id" = some (.vInt m) := by
      cases hg : d.get "id" with
      | none => rw [hasIntId, hg] at h; simp at h
      | some v =>
        cases v with
        | vInt m => exact ⟨m, rfl⟩
        | _ => rw [hasIntId, hg] at h; simp_all
    have hid : idInList d ids = decide (m ∈ ids) := by
      rw [idInList, hm]
      simp [inIntList_vInt]
    have ih' := ih h.2
    have hsids : storeIds (d :: rest) = m :: storeIds rest := by
      simp [storeIds, hm]
    rw [hsids]
    by_cases hmem : m ∈ ids
    · simp [List.filter_cons, hid, hmem, ih']
    · simp [List.filter_cons, hid, hmem, ih']

/-- Counting the common elements of two integer lists from either side:
for a duplicate-free `xs`, the elements of `xs` lying in `ids` are as
many as the distinct elements of `ids` lying in `xs`. -/
theorem filter_mem_length_comm (xs ids : List Int) (hxs : xs.Nodup) :
    (xs.filter (fun x => decide (x ∈ ids))).length
      = (ids.dedup.filter (fun i => decide (i ∈ xs))).length := by
  have h1 : (xs.filter (fun x => decide (x ∈ ids))).toFinset
      = xs.toFinset ∩ ids.toFinset := by
    ext a
    simp [List.mem_toFinset, List.mem_filter]
  have h2 : (ids.dedup.filter (fun i => decide (i ∈ xs))).toFinset
      = ids.toFinset ∩ xs.toFinset := by
    ext a
    simp [List.mem_toFinset, List.mem_filter, List.mem_dedup]
  have n1 : (xs.filter (fun x => decide (x ∈ ids))).Nodup := hxs.filter _
  have n2 : (ids.dedup.filter (fun i => decide (i ∈ xs))).Nodup :=
    (List.nodup_dedup ids).filter _
  calc (xs.filter (fun x => decide (x ∈ ids))).length
      = (xs.filter (fun x => decide (x ∈ ids))).toFinset.card :=
        (List.toFinset_card_of_nodup n1).symm
    _ = (xs.toFinset ∩ ids.toFinset).card := by rw [h1]
    _ = (ids.toFinset ∩ xs.toFinset).card := by rw [Finset.inter_comm]
    _ = (ids.dedup.filter (fun i => decide (i ∈ xs))).toFinset.card := by rw [h2]
    _ = (ids.dedup.filter (fun i => decide (i ∈ xs))).length :=
        List.toFinset_card_of_nodup n2

/-- On a well-formed table, counting the rows whose id is in `ids` counts
the table ids in `ids`. -/
theorem length_filter_dbInList (db : DbState) (ids : List Int)
    (h : WFDb db = true) :
    (db.rows.filter (fun r => r.id.inIntList ids)).length
      = ((dbIds db).filter (fun n => decide (n ∈ ids))).length := by
  obtain ⟨rows, nextId⟩ := db
  simp only [WFDb, List.all_eq_true] at h
  simp only [dbIds]
  induction rows with
  | nil => rfl
  | cons r rest ih =>
    obtain ⟨m, hm⟩ : ∃ m, r.id = .vInt m := by
      have := h r (List.mem_cons_self ..)
      cases hg : r.id with
      | vInt m => exact ⟨m, rfl⟩
      | _ => rw [hg] at this; simp at this
    have ih' := ih (fun x hx => h x (List.mem_cons_of_mem _ hx))
    by_cases hmem : m ∈ ids
    · simp [List.filter_cons, hm, inIntList_vInt, hmem, ih']
    · simp [List.filter_cons, hm, inIntList_vInt, hmem, ih']

/-- Counting rows whose id lies in `ids` equals counting the table's id
list against `ids`. -/
theorem length_filter_pgInList (rows : List CoreExpense) (ids : List Int) :
    (rows.filter (fun r => decide (r.id ∈ ids))).length
      = ((rows.map (fun r => r.id)).filter (fun n => decide (n ∈ ids))).length := by
  induction rows with
  | nil => rfl
  | cons r rest ih =>
    by_cases hmem : r.id ∈ ids
    · simp [List.filter_cons, hmem, ih]
    · simp [List.filter_cons, hmem, ih]

/-- Counterexample for C6: a bulk-delete call with a mixed list of
existing and nonexistent ids does not return a count — in this revision
`ExpenseService.bulk_delete_expenses` raises `RuntimeError` at its
`self._load_expenses()` call, so the nonexistent ids are not "silently
skipped rather than causing an error". -/
theorem C6_counterexample :
    ExpenseService.bulk_delete_expenses false [1, 999]
      = .error (.runtimeError (jsonRemovedLoadMsg "expenses.json")) := rfl

/-- C6 (amended): the repository bulk-deletes do return the exact count —
`BaseRepository.bulk_delete` and `PostgresExpenseRepository.bulk_delete`
(the live path of this revision) each return exactly the number of
distinct listed ids present in the table, silently skipping nonexistent
ids and leaving every row with an unlisted id unchanged — but the cited
`ExpenseService.bulk_delete_expenses` never returns a count in this
revision: it raises `RuntimeError` at the removed JSON storage on every
call. -/
theorem C6_bulk_delete_exact_count :
    (∀ (dw : Bool) (ids : List Int),
        ExpenseService.bulk_delete_expenses dw ids
          = .error (.runtimeError (jsonRemovedLoadMsg "expenses.json"))) ∧
    (∀ (db : DbState) (ids : List Int),
        WFDb db = true → (dbIds db).Nodup →
        (dbBulkDelete db ids).1
          = ((ids.dedup.filter (fun i => decide (i ∈ dbIds db))).length : Int) ∧
        (dbBulkDelete db ids).2.rows
          = db.rows.filter (fun r => !(r.id.inIntList ids))) ∧
    (∀ (st : PgState) (ids : List Int),
        (pgIds st).Nodup →
        (pgBulkDelete st ids).1
          = ((ids.dedup.filter (fun i => decide (i ∈ pgIds st))).length : Int) ∧
        (pgBulkDelete st ids).2.rows
          = st.rows.filter (fun r => !decide (r.id ∈ ids))) := by
  refine ⟨fun _ _ => rfl, ?_, ?_⟩
  · intro db ids hwf hnodup
    constructor
    · show ((db.rows.countP (fun r => r.id.inIntList ids) : Nat) : Int) = _
      rw [List.countP_eq_length_filter, length_filter_dbInList db ids hwf,
        filter_mem_length_comm _ _ hnodup]
    · rfl
  · intro st ids hnodup
    simp only [pgIds] at hnodup ⊢
    constructor
    · show ((st.rows.countP (fun r => decide (r.id ∈ ids)) : Nat) : Int) = _
      rw [List.countP_eq_length_filter, length_filter_pgInList,
        filter_mem_length_comm _ _ hnodup]
    · rfl

/-- Witness for C6: the concrete service call raises `RuntimeError`,
while concrete two-row tables bulk-deleted with `[2, 3, 2]` report
exactly one deletion in both repository models. -/
theorem C6_witness :
    ExpenseService.bulk_delete_expenses false [2, 3, 2]
      = .error (.runtimeError (jsonRemovedLoadMsg "expenses.json")) ∧
    (dbBulkDelete ⟨[⟨.vInt 1, .vDate "2025-11-01", .vNull, .vStr "G", .vDec 5,
                     .vStr "V", .vStr "₪", .vNull⟩,
                    ⟨.vInt 2, .vDate "2025-11-05", .vNull, .vStr "T", .vDec 5,
                     .vStr "C", .vStr "₪", .vNull⟩], 3⟩ [2, 3, 2]).1 = 1 ∧
    (pgBulkDelete ⟨[⟨1, some "2025-11-01", none, "G", none, "V", "₪", none⟩,
                    ⟨2, some "2025-11-05", none, "T", none, "C", "₪", none⟩], 3⟩
        [2, 3, 2]).1 = 1 :=
  ⟨C6_bulk_delete_exact_count.1 false [2, 3, 2],
   ((C6_bulk_delete_exact_count.2.1 _ [2, 3, 2] (by decide) (by decide)).1).trans
     (by decide),
   ((C6_bulk_delete_exact_count.2.2 _ [2, 3, 2] (by decide)).1).trans (by decide)⟩

/-- On the Postgres store, deleting a present id removes every row with
that id, so an immediately repeated delete finds nothing and changes
nothing. -/
theorem pgDelete_twice (st : PgState) (expense_id : Int) (e : CoreExpense)
    (hfind : st.rows.find? (fun r => decide (r.id = expense_id)) = some e) :
    ∃ st₁ : PgState,
      pgDelete st expense_id = (true, st₁) ∧
      pgDelete st₁ expense_id = (false, st₁) ∧
      st₁.rows.find? (fun r => decide (r.id = expense_id)) = none := by
  set F := st.rows.filter (fun r => !decide (r.id = expense_id)) with hF
  have hnone : F.find? (fun r => decide (r.id = expense_id)) = none := by
    rw [List.find?_eq_none]
    intro r hr
    have := (List.mem_filter.mp hr).2
    simpa using this
  refine ⟨{ st with rows := F }, ?_, ?_, hnone⟩
  · simp only [pgDelete, hfind]
  · simp only [pgDelete, hnone]

/-- Counterexample for C7: `delete(id)` does not return `true` the first
time — in this revision `ExpenseService.delete_expense` raises
`RuntimeError` at its `self._load_expenses()` call on every id, and
`JsonRepository.delete` likewise raises at its load, so neither cited
path ever returns the claimed `true`-then-`false` pair. -/
theorem C7_counterexample :
    ExpenseService.delete_expense false 1
      = .error (.runtimeError (jsonRemovedLoadMsg "expenses.json")) ∧
    JsonRepository.delete .fresh "expenses" 1
      = .error (.runtimeError (jsonRemovedLoadMsg "expenses.json")) := ⟨rfl, rfl⟩

/-- C7 (amended): delete is idempotent in outcome on the functioning
relational path of this revision — `PostgresExpenseRepository.delete`
returns `true` for a present id and `false` on the immediately repeated
call, which finds nothing and leaves the table unchanged — but the cited
`ExpenseService.delete_expense` and `JsonRepository.delete` raise
`RuntimeError` on every call in this revision and never return
`true`. -/
theorem C7_delete_twice_true_then_false :
    (∀ (dw : Bool) (id : Int),
        ExpenseService.delete_expense dw id
          = .error (.runtimeError (jsonRemovedLoadMsg "expenses.json"))) ∧
    (∀ (entity_type : String) (id : Int),
        JsonRepository.delete .fresh entity_type id
          = .error (.runtimeError (jsonRemovedLoadMsg (entity_type ++ ".json")))) ∧
    (∀ (st : PgState) (id : Int) (e : CoreExpense),
        st.rows.find? (fun r => decide (r.id = id)) = some e →
        ∃ st₁ : PgState,
          pgDelete st id = (true, st₁) ∧
          pgDelete st₁ id = (false, st₁) ∧
          st₁.rows.find? (fun r => decide (r.id = id)) = none) :=
  ⟨fun _ _ => rfl, fun _ _ => rfl, pgDelete_twice⟩

/-- Witness for C7: the concrete service call raises; deleting id 1 from
a concrete one-row table returns `true` then `false`. -/
theorem C7_witness :
    ExpenseService.delete_expense false 7
      = .error (.runtimeError (jsonRemovedLoadMsg "expenses.json")) ∧
    ∃ st₁ : PgState,
      pgDelete ⟨[⟨1, some "2025-11-01", none, "G", none, "V", "₪", none⟩], 2⟩ 1
        = (true, st₁) ∧
      pgDelete st₁ 1 = (false, st₁) ∧
      st₁.rows.find? (fun r => decide (r.id = 1)) = none :=
  ⟨C7_delete_twice_true_then_false.1 false 7,
   C7_delete_twice_true_then_false.2.2
     ⟨[⟨1, some "2025-11-01", none, "G", none, "V", "₪", none⟩], 2⟩ 1
     ⟨1, some "2025-11-01", none, "G", none, "V", "₪", none⟩ rfl⟩

/-- The decimal `0.10` is not a dyadic rational, hence not the exact
value of any binary floating-point number. -/
theorem not_dyadic_tenth : ¬ IsDyadic ((1 : Rat)/10) := by
  rintro ⟨m, k, h⟩
  rw [div_eq_div_iff (by norm_num) (by positivity)] at h
  have hint : (2 : Int)^k = m * 10 := by exact_mod_cast (by linarith : ((2:Rat)^k) = m * 10)
  have h5 : (5 : Int) ∣ 2^k := ⟨m * 2, by linarith⟩
  have h5' : (5 : Nat) ∣ 2^k := by
    have : ((5 : Nat) : Int) ∣ ((2^k : Nat) : Int) := by push_cast; exact h5
    exact_mod_cast this
  have := Nat.Prime.dvd_of_dvd_pow (by norm_num : Nat.Prime 5) h5'
  omega

/-- Counterexample for C8: with `float` realized as the IEEE-754 binary64
conversion, the record storing exactly `0.10` (= `1/10`) is read back
through `to_dict` as the double `3602879701896397 · 2⁻⁵⁵`, which is
*not* the exact decimal value `0.10` — the read path returns a
binary-float approximation. -/
theorem C8_counterexample :
    (coreExpenseToDict (fun _ => double_0_10)
        ⟨1, some "2025-12-01", none, "Groceries", some (1/10), "Visa", "₪",
         none⟩).get "amount"
      = some (.vRat double_0_10) ∧
    double_0_10 ≠ 1/10 ∧
    IsDyadic double_0_10 := by
  refine ⟨?_, by norm_num [double_0_10], ⟨3602879701896397, 55, by norm_num [double_0_10]⟩⟩
  have h10 : ¬ ((1 : Rat)/10 = 0) := by norm_num
  simp [coreExpenseToDict, amountFieldValue, Dict.get, h10]

/-- C8 (amended): amounts are held exactly in the store
(`Numeric(12,2)`/`Decimal`), but every read path converts them with
Python's `float` — `Expense.to_dict` and
`ExpenseService._convert_from_db_format` — whose result is a dyadic
rational; for an amount such as `0.10`, whose reduced denominator is not
a power of two, the returned value therefore *cannot* equal the exact
two-decimal value, whatever rounding `float` performs. -/
theorem C8_amount_read_is_binary_float :
    (∀ (pyFloat : Rat → Rat), (∀ q, IsDyadic (pyFloat q)) →
      ∀ (e : CoreExpense), e.amount = some (1/10) →
        ∃ d : Rat, (coreExpenseToDict pyFloat e).get "amount" = some (.vRat d) ∧
          IsDyadic d ∧ d ≠ 1/10) ∧
    (∀ (pyFloat : Rat → Rat), (∀ q, IsDyadic (pyFloat q)) →
      ∀ (row : DbExpense) (s : String) (expense : Dict),
        row.date = .vDate s → row.amount = .vDec (1/10) →
        convert_from_db_format pyFloat row = .ok expense →
        ∃ d : Rat, expense.get "amount" = some (.vRat d) ∧
          IsDyadic d ∧ d ≠ 1/10) := by
  constructor
  · intro pyFloat hdy e hamt
    refine ⟨pyFloat (1/10), ?_, hdy _, ?_⟩
    · have h10 : ¬ ((1 : Rat)/10 = 0) := by norm_num
      simp [coreExpenseToDict, amountFieldValue, hamt, Dict.get, h10]
    · intro heq
      exact not_dyadic_tenth (heq ▸ hdy (1/10))
  · intro pyFloat hdy row s expense hdate hamt hconv
    unfold convert_from_db_format at hconv
    simp only [hdate, pure_bind, hamt] at hconv
    have hpf : pyFloatValue pyFloat (.vDec (1/10)) = .ok (pyFloat (1/10)) := rfl
    rw [hpf] at hconv
    simp only [excBindOk, Except.ok.injEq] at hconv
    refine ⟨pyFloat (1/10), ?_, hdy _, ?_⟩
    · rw [← hconv]
      simp [Dict.get]
    · intro heq
      exact not_dyadic_tenth (heq ▸ hdy (1/10))

/-- Witness for C8's amended statement: the IEEE-754 conversion of the
`0.10` record yields a dyadic amount different from `1/10`. -/
theorem C8_witness :
    ∃ d : Rat,
      (coreExpenseToDict (fun _ => double_0_10)
          ⟨1, some "2025-12-01", none, "Groceries", some (1/10), "Visa", "₪",
           none⟩).get "amount" = some (.vRat d) ∧
      IsDyadic d ∧ d ≠ 1/10 :=
  C8_amount_read_is_binary_float.1 (fun _ => double_0_10)
    (fun _ => ⟨3602879701896397, 55, by norm_num [double_0_10]⟩)
    ⟨1, some "2025-12-01", none, "Groceries", some (1/10), "Visa", "₪", none⟩
    rfl

/-- Witness for C2: with `FF_X=False` in the environment, a global
database row `enabled=true` and default `true`, resolution returns
`false` (the environment wins); with no environment value the
user-specific row beats the global row; with neither row the default is
returned, also on a broken store. -/
theorem C2_witness :
    is_feature_enabled (fun k => if k = "FF_X" then some "False" else none)
        "x" true none (some (.ok [⟨"X", true, none⟩])) = false ∧
    is_feature_enabled (fun _ => none) "Y" false (some 5)
        (some (.ok [⟨"Y", false, some 5⟩, ⟨"Y", true, none⟩])) = false ∧
    is_feature_enabled (fun _ => none) "Y" false (some 6)
        (some (.ok [⟨"Y", false, some 5⟩, ⟨"Y", true, none⟩])) = true ∧
    is_feature_enabled (fun _ => none) "Z" true none (some (.ok [])) = true ∧
    is_feature_enabled (fun _ => none) "Z" true none
        (some (.broken "relation feature_flags does not exist")) = true :=
  ⟨C2_flag_resolution_priority.2.2.2.1 _ "x" true none _ false
      (C2_flag_resolution_priority.2.1 _ "x" "False" (by decide) (by decide)),
   C2_flag_resolution_priority.2.2.2.2.1 _ "Y" false 5 _ ⟨"Y", false, some 5⟩
      (by decide) (by decide),
   C2_flag_resolution_priority.2.2.2.2.2.1 _ "Y" false 6 _ ⟨"Y", true, none⟩
      (by decide) (by decide) (by decide),
   C2_flag_resolution_priority.2.2.2.2.2.2.2.1 _ "Z" true none _
      (by decide) (fun session h => by cases h; rfl),
   (C2_flag_resolution_priority.2.2.2.2.2.2.2.2 _ "Z" true none _).trans
      (C2_flag_resolution_priority.2.2.2.2.2.2.2.1 _ "Z" true none none
        (by decide) (fun session h => by cases h))⟩

end HomeBudget
